import Mathlib

/-!
# Verification of the EOQL epistemic query pipeline

A shallow embedding, in Lean 4, of the parts of the `eoql` Python package
that the specification's claims are about:

* `src/eoql/ir/model.py` — the immutable query IR (`EOQLQuery` and its
  sub-structures),
* `src/eoql/ir/validation.py` — the soundness validator `validate_query`,
* `src/eoql/ir/serialize.py` — `to_dict` / `from_dict` round-tripping,
* `src/eoql/backends/sql/postgres.py` — the `PostgresCompiler`,
* `src/eoql/executor/postgres.py` — the `PostgresExecutor`,
* `src/eoql/registry/frames.py` and `src/eoql/registry/expectations.py` —
  the frame and expectation registries.

Modelling conventions:

* Python `Any`-typed values (predicate values, config dicts, raw database
  rows) are modelled by the JSON-like value type `JVal`; JSON numbers are
  modelled as integers (floating point is out of scope).
* Python `dict`s are modelled as insertion-ordered association lists with
  unique keys, matching CPython's ordered-dict semantics.
* Python truthiness of strings / optional strings (`if not s: ...`) is
  modelled by `sTruthy` / `oTruthy`.
* Fallible Python code (functions that `raise`) returns `Except`;
  functions with no `raise` path are total.
* The field `TimeWindow.end` is renamed `end_` (`end` is a Lean keyword),
  and `Pattern.match` is renamed `match_` (`match` is a Lean keyword).
-/

namespace EOQL

set_option maxRecDepth 200000
set_option maxHeartbeats 2000000

/-- JSON-like values: the model of Python `Any`-typed, JSON-representable
data (predicate values, scopes, params, raw rows). Numbers are modelled
as integers. -/
inductive JVal where
  | jnull : JVal
  | jbool : Bool → JVal
  | jnum : Int → JVal
  | jstr : String → JVal
  | jarr : List JVal → JVal
  | jobj : List (String × JVal) → JVal
  deriving Repr

mutual

/-- Decidable equality for `JVal` (structural). -/
def JVal.beq : JVal → JVal → Bool
  | .jnull, .jnull => true
  | .jbool a, .jbool b => a == b
  | .jnum a, .jnum b => a == b
  | .jstr a, .jstr b => a == b
  | .jarr a, .jarr b => JVal.beqList a b
  | .jobj a, .jobj b => JVal.beqObj a b
  | _, _ => false

/-- Elementwise equality of `JVal` lists. -/
def JVal.beqList : List JVal → List JVal → Bool
  | [], [] => true
  | a :: as', b :: bs' => JVal.beq a b && JVal.beqList as' bs'
  | _, _ => false

/-- Elementwise equality of keyed `JVal` lists. -/
def JVal.beqObj : List (String × JVal) → List (String × JVal) → Bool
  | [], [] => true
  | (ka, va) :: as', (kb, vb) :: bs' =>
      ka == kb && JVal.beq va vb && JVal.beqObj as' bs'
  | _, _ => false

end

mutual

theorem JVal.beq_iff : ∀ a b : JVal, JVal.beq a b = true ↔ a = b
  | .jnull, .jnull => by simp [JVal.beq]
  | .jbool a, .jbool b => by simp [JVal.beq]
  | .jnum a, .jnum b => by simp [JVal.beq]
  | .jstr a, .jstr b => by simp [JVal.beq]
  | .jarr a, .jarr b => by
      simp only [JVal.beq]
      rw [JVal.beqList_iff a b]
      constructor
      · intro h; rw [h]
      · intro h; injection h
  | .jobj a, .jobj b => by
      simp only [JVal.beq]
      rw [JVal.beqObj_iff a b]
      constructor
      · intro h; rw [h]
      · intro h; injection h
  | .jnull, .jbool _ | .jnull, .jnum _ | .jnull, .jstr _ | .jnull, .jarr _ | .jnull, .jobj _
  | .jbool _, .jnull | .jbool _, .jnum _ | .jbool _, .jstr _ | .jbool _, .jarr _ | .jbool _, .jobj _
  | .jnum _, .jnull | .jnum _, .jbool _ | .jnum _, .jstr _ | .jnum _, .jarr _ | .jnum _, .jobj _
  | .jstr _, .jnull | .jstr _, .jbool _ | .jstr _, .jnum _ | .jstr _, .jarr _ | .jstr _, .jobj _
  | .jarr _, .jnull | .jarr _, .jbool _ | .jarr _, .jnum _ | .jarr _, .jstr _ | .jarr _, .jobj _
  | .jobj _, .jnull | .jobj _, .jbool _ | .jobj _, .jnum _ | .jobj _, .jstr _ | .jobj _, .jarr _ => by
      simp [JVal.beq]

theorem JVal.beqList_iff : ∀ a b : List JVal, JVal.beqList a b = true ↔ a = b
  | [], [] => by simp [JVal.beqList]
  | [], _ :: _ => by simp [JVal.beqList]
  | _ :: _, [] => by simp [JVal.beqList]
  | a :: as', b :: bs' => by
      simp only [JVal.beqList, Bool.and_eq_true]
      rw [JVal.beq_iff a b, JVal.beqList_iff as' bs']
      simp

theorem JVal.beqObj_iff :
    ∀ a b : List (String × JVal), JVal.beqObj a b = true ↔ a = b
  | [], [] => by simp [JVal.beqObj]
  | [], _ :: _ => by simp [JVal.beqObj]
  | _ :: _, [] => by simp [JVal.beqObj]
  | (ka, va) :: as', (kb, vb) :: bs' => by
      simp only [JVal.beqObj, Bool.and_eq_true]
      rw [JVal.beq_iff va vb, JVal.beqObj_iff as' bs']
      constructor
      · rintro ⟨⟨h1, h2⟩, h3⟩
        simp_all [Prod.ext_iff]
      · intro h
        injection h with h1 h2
        cases h1
        simp_all

end

instance : DecidableEq JVal := fun a b =>
  decidable_of_iff (JVal.beq a b = true) (JVal.beq_iff a b)

/-- Python truthiness of a string: non-empty strings are truthy. -/
def sTruthy (s : String) : Bool := !s.isEmpty

/-- Python truthiness of an optional string: `None` and `""` are falsy. -/
def oTruthy : Option String → Bool
  | none => false
  | some s => sTruthy s

/-- Python truthiness of a `JVal` (`None`, `False`, `0`, `""`, `[]`, `{}`
are falsy). -/
def jTruthy : JVal → Bool
  | .jnull => false
  | .jbool b => b
  | .jnum n => n != 0
  | .jstr s => sTruthy s
  | .jarr l => !l.isEmpty
  | .jobj l => !l.isEmpty

-- ---------- IR model (src/eoql/ir/model.py) ----------

/-- `Target`: what kind of objects we are querying for. -/
inductive Target where
  | CLAIMS | EDGES | ENTITIES | ASSERTIONS | ABSENCES
  deriving DecidableEq, Repr

/-- String literal value of a `Target` (the Python enum value). -/
def Target.value : Target → String
  | .CLAIMS => "CLAIMS"
  | .EDGES => "EDGES"
  | .ENTITIES => "ENTITIES"
  | .ASSERTIONS => "ASSERTIONS"
  | .ABSENCES => "ABSENCES"

/-- `Mode`: GIVEN (directly asserted) vs MEANT (includes derived). -/
inductive Mode where
  | GIVEN | MEANT
  deriving DecidableEq, Repr

/-- String literal value of a `Mode`. -/
def Mode.value : Mode → String
  | .GIVEN => "GIVEN"
  | .MEANT => "MEANT"

/-- `Visibility`: VISIBLE (scoped-out excluded) vs EXISTS (included with
annotation). -/
inductive Visibility where
  | VISIBLE | EXISTS
  deriving DecidableEq, Repr

/-- String literal value of a `Visibility`. -/
def Visibility.value : Visibility → String
  | .VISIBLE => "VISIBLE"
  | .EXISTS => "EXISTS"

/-- `TimeKind`: AS_OF point-in-time vs BETWEEN range projection. -/
inductive TimeKind where
  | AS_OF | BETWEEN
  deriving DecidableEq, Repr

/-- String literal value of a `TimeKind`. -/
def TimeKind.value : TimeKind → String
  | .AS_OF => "AS_OF"
  | .BETWEEN => "BETWEEN"

/-- `ConflictPolicy`: how to handle conflicting claims. -/
inductive ConflictPolicy where
  | EXPOSE_ALL | CLUSTER | RANK | PICK_ONE
  deriving DecidableEq, Repr

/-- String literal value of a `ConflictPolicy`. -/
def ConflictPolicy.value : ConflictPolicy → String
  | .EXPOSE_ALL => "EXPOSE_ALL"
  | .CLUSTER => "CLUSTER"
  | .RANK => "RANK"
  | .PICK_ONE => "PICK_ONE"

/-- `FrameRef`: a named, versioned interpretation-policy reference. -/
structure FrameRef where
  frame_id : String
  version : Option String := none
  deriving DecidableEq, Repr

/-- `TimeWindow`: AS_OF / BETWEEN time projection. The Python field `end`
is renamed `end_` (`end` is a Lean keyword). -/
structure TimeWindow where
  kind : TimeKind
  as_of : Option String := none
  start : Option String := none
  end_ : Option String := none
  deriving DecidableEq, Repr

/-- `TimeWindow.asof` static constructor. -/
def TimeWindow.asof (ts : String) : TimeWindow :=
  { kind := TimeKind.AS_OF, as_of := some ts }

/-- `TimeWindow.between` static constructor. -/
def TimeWindow.between (start : String) (end_ : String) : TimeWindow :=
  { kind := TimeKind.BETWEEN, start := some start, end_ := some end_ }

/-- `Predicate`: a single filter condition. -/
structure Predicate where
  field : String
  op : String
  value : JVal
  deriving DecidableEq, Repr

/-- `Pattern`: free-text match plus ordered predicates. The Python field
`match` is renamed `match_` (`match` is a Lean keyword). -/
structure Pattern where
  match_ : Option String := none
  where_ : List Predicate := []
  deriving DecidableEq, Repr

/-- `GroundingSpec`: grounding-traversal configuration. -/
structure GroundingSpec where
  trace : Bool := false
  max_depth : Int := 0
  grounded_by : List Predicate := []
  deriving DecidableEq, Repr

/-- `SelectionRule`: required if `conflict_policy == PICK_ONE`. -/
structure SelectionRule where
  rule_id : String
  params : List (String × JVal) := []
  deriving DecidableEq, Repr

/-- `ReturnSpec`: what to include in query results. -/
structure ReturnSpec where
  include_context : Bool := true
  include_frame : Bool := true
  include_visibility_notes : Bool := true
  include_conflicts : Bool := true
  conflict_policy : ConflictPolicy := ConflictPolicy.EXPOSE_ALL
  selection_rule : Option SelectionRule := none
  deriving DecidableEq, Repr

/-- `ExpectationRef`: reference to an expectation artifact. -/
structure ExpectationRef where
  expectation_id : String
  version : Option String := none
  deriving DecidableEq, Repr

/-- `AbsenceSpec`: specification for querying meaningful absences. -/
structure AbsenceSpec where
  expectation : ExpectationRef
  scope : Option (List (String × JVal)) := none
  deadline_hours : Option Int := none
  deriving DecidableEq, Repr

/-- `EOQLQuery`: the EOQL query intermediate representation. -/
structure EOQLQuery where
  target : Target
  mode : Mode
  visibility : Visibility
  frame : FrameRef
  time : TimeWindow
  pattern : Pattern := {}
  grounding : GroundingSpec := {}
  absence : Option AbsenceSpec := none
  returns : ReturnSpec := {}
  deriving DecidableEq, Repr

-- ---------- IR validation (src/eoql/ir/validation.py) ----------

/-- `EOQLValidationError`: raised when an EOQL query violates soundness
invariants; carries the complete violation list and the query. -/
structure EOQLValidationError where
  errors : List String
  query : Option EOQLQuery
  deriving DecidableEq, Repr

/-- The exception message built by `EOQLValidationError.__init__`. -/
def EOQLValidationError.msg (e : EOQLValidationError) : String :=
  "EOQLQuery failed validation:\n- " ++ String.intercalate "\n- " e.errors

/-- `_validate_absence`: the list of error strings it appends for an
absence spec. (The Python passes `errors` by reference and appends; the
model returns the appended entries.)  `absence.expectation` is a
dataclass, hence always truthy in Python, so only the
`expectation_id` content check can fire. -/
def validateAbsence (absence : AbsenceSpec) : List String :=
  if ¬ sTruthy absence.expectation.expectation_id then
    ["I5: absence.expectation.expectation_id must be provided."]
  else []

/-- `validate_query`'s accumulated `errors` list, in append order.
The Python checks `if not q.time`, `if not q.mode`, `if not q.visibility`
can never fire (a dataclass and non-empty-string enums are always
truthy), and the `else: errors.append("I2: Unsupported time.kind.")`
branch is unreachable (TimeKind has exactly AS_OF and BETWEEN), so those
contribute nothing. -/
def validateErrors (q : EOQLQuery) : List String :=
  (if ¬ sTruthy q.frame.frame_id then
    ["I1: frame.frame_id must be non-empty."] else [])
  ++ (match q.time.kind with
      | TimeKind.AS_OF =>
        (if ¬ oTruthy q.time.as_of then
          ["I2: AS_OF time requires time.as_of."] else [])
        ++ (if oTruthy q.time.start || oTruthy q.time.end_ then
          ["I2: AS_OF must not include start/end."] else [])
      | TimeKind.BETWEEN =>
        (if ¬ (oTruthy q.time.start && oTruthy q.time.end_) then
          ["I2: BETWEEN time requires time.start and time.end."] else [])
        ++ (if oTruthy q.time.as_of then
          ["I2: BETWEEN must not include as_of."] else []))
  ++ (if q.grounding.trace ∧ q.grounding.max_depth < 1 then
    ["I6: TRACE requires grounding.max_depth >= 1."] else [])
  ++ (q.grounding.grounded_by.map (fun p =>
      if ¬ (sTruthy p.field && sTruthy p.op) then
        ["I6: GROUNDED BY predicates must have field and op."]
      else [])).join
  ++ (if q.target = Target.ABSENCES ∨ q.absence ≠ none then
      match q.absence with
      | none => ["I5: ABSENCES target requires absence spec."]
      | some a => validateAbsence a
    else [])
  ++ (if q.returns.conflict_policy = ConflictPolicy.PICK_ONE then
      match q.returns.selection_rule with
      | none => ["I7: PICK_ONE requires returns.selection_rule."]
      | some r =>
        if ¬ sTruthy r.rule_id then
          ["I7: selection_rule.rule_id must be non-empty."] else []
    else [])

/-- `validate_query`: raises `EOQLValidationError` iff the accumulated
error list is non-empty, else returns `None`. -/
def validateQuery (q : EOQLQuery) : Except EOQLValidationError Unit :=
  let errors := validateErrors q
  if errors = [] then Except.ok ()
  else Except.error { errors := errors, query := some q }

-- ---------- Spec-side soundness invariants (spec.md §3) ----------

/-- Spec §3: frame_id non-empty. -/
def InvFrame (q : EOQLQuery) : Prop := sTruthy q.frame.frame_id = true

/-- Spec §3: time content matches its kind exactly (AS_OF carries only
`as_of`; BETWEEN only `start`/`end`). -/
def InvTime (q : EOQLQuery) : Prop :=
  match q.time.kind with
  | TimeKind.AS_OF =>
      oTruthy q.time.as_of = true ∧ oTruthy q.time.start = false ∧
      oTruthy q.time.end_ = false
  | TimeKind.BETWEEN =>
      oTruthy q.time.start = true ∧ oTruthy q.time.end_ = true ∧
      oTruthy q.time.as_of = false

/-- Spec §3: trace ⇒ max_depth ≥ 1. -/
def InvTrace (q : EOQLQuery) : Prop :=
  q.grounding.trace = true → 1 ≤ q.grounding.max_depth

/-- Spec §3: every grounding predicate has non-empty field and op. -/
def InvGroundedBy (q : EOQLQuery) : Prop :=
  ∀ p ∈ q.grounding.grounded_by, sTruthy p.field = true ∧ sTruthy p.op = true

/-- Spec §3: target=ABSENCES or absence-set ⇒ absence present with
non-empty expectation_id. -/
def InvAbsence (q : EOQLQuery) : Prop :=
  q.target = Target.ABSENCES ∨ q.absence ≠ none →
    ∃ a, q.absence = some a ∧ sTruthy a.expectation.expectation_id = true

/-- Spec §3: conflict_policy=PICK_ONE ⇒ selection_rule present with
non-empty rule_id. -/
def InvSelection (q : EOQLQuery) : Prop :=
  q.returns.conflict_policy = ConflictPolicy.PICK_ONE →
    ∃ r, q.returns.selection_rule = some r ∧ sTruthy r.rule_id = true

/-- All soundness invariants of spec §3 together. -/
def SoundQuery (q : EOQLQuery) : Prop :=
  InvFrame q ∧ InvTime q ∧ InvTrace q ∧ InvGroundedBy q ∧ InvAbsence q ∧
  InvSelection q

theorem validateErrors_nil_iff (q : EOQLQuery) :
    validateErrors q = [] ↔ SoundQuery q := by
  unfold validateErrors SoundQuery InvFrame InvTime InvTrace InvGroundedBy
    InvAbsence InvSelection validateAbsence
  rcases hk : q.time.kind <;> rcases ha : q.absence <;>
    rcases hs : q.returns.selection_rule <;>
    simp [hk, ha, hs, List.append_eq_nil, List.join_eq_nil, List.mem_map,
      not_lt, imp_false, not_or, and_assoc]

/-- The concrete multi-violation query from the claim: PICK_ONE with no
selection rule, target ABSENCES with no absence spec, and an AS_OF time
that also carries start/end. -/
def qMultiViolation : EOQLQuery :=
  { target := Target.ABSENCES
    mode := Mode.GIVEN
    visibility := Visibility.VISIBLE
    frame := { frame_id := "F_default" }
    time := { kind := TimeKind.AS_OF, as_of := some "2025-12-27T00:00:00Z",
              start := some "2025-01-01", end_ := some "2025-12-31" }
    returns := { conflict_policy := ConflictPolicy.PICK_ONE } }

/-- C1: `validate_query` checks every §3 soundness invariant and reports
the complete violation list in a single `EOQLValidationError`: the error
list is empty iff all invariants hold (so it raises iff at least one
invariant is violated, never after only the first failure), and the
concrete triple-violation query (PICK_ONE without selection rule,
ABSENCES without absence spec, AS_OF carrying start/end) yields exactly
one entry per violated invariant, each prefixed with its stable code. -/
theorem C1_validate_complete :
    (∀ q : EOQLQuery,
      (validateQuery q = Except.ok () ↔ SoundQuery q) ∧
      (∀ e, validateQuery q = Except.error e → e.errors = validateErrors q ∧
        e.errors ≠ []) ∧
      ((∃ e, validateQuery q = Except.error e) ↔ ¬ SoundQuery q)) ∧
    validateErrors qMultiViolation =
      ["I2: AS_OF must not include start/end.",
       "I5: ABSENCES target requires absence spec.",
       "I7: PICK_ONE requires returns.selection_rule."] := by
  constructor
  · intro q
    refine ⟨?_, ?_, ?_⟩
    · rw [← validateErrors_nil_iff]
      unfold validateQuery
      constructor
      · intro h
        by_contra hc
        simp [hc] at h
      · intro h
        simp [h]
    · intro e he
      unfold validateQuery at he
      by_cases h : validateErrors q = []
      · simp [h] at he
      · simp only [h, if_neg h] at he
        injection he with he'
        rw [← he']
        exact ⟨rfl, h⟩
    · rw [← validateErrors_nil_iff]
      unfold validateQuery
      by_cases h : validateErrors q = []
      · simp [h]
      · simp [h]
  · rfl


-- ---------- Postgres compiler (src/eoql/backends/sql/postgres.py) ----------

/-- `SQLPlan`: the compiled SQL plan with epistemic guarantees. `params`
is a dict of SQL parameters, `context` the epistemic context dict for the
executor (all its values are strings). -/
structure SQLPlan where
  sql : String
  params : List (String × JVal)
  notes : List String
  context : List (String × String)
  deriving DecidableEq, Repr

/-- A fragment of an interpolated Python f-string: `lit` is template text
written by the compiler itself, `par` is text interpolated from the
query (identifiers, timestamps, pattern text, predicate values, ...). -/
inductive SqlFrag where
  | lit : String → SqlFrag
  | par : String → SqlFrag
  deriving DecidableEq, Repr

/-- The text of a fragment. -/
def SqlFrag.str : SqlFrag → String
  | .lit s => s
  | .par s => s

/-- Whether a fragment is compiler-written template text. -/
def SqlFrag.isLit : SqlFrag → Bool
  | .lit _ => true
  | .par _ => false

/-- Concatenate a fragment list into the f-string it denotes. -/
def fstr : List SqlFrag → String
  | [] => ""
  | f :: t => f.str ++ fstr t

theorem fstr_append (a b : List SqlFrag) : fstr (a ++ b) = fstr a ++ fstr b := by
  induction a with
  | nil => simp [fstr]
  | cons f t ih => simp [fstr, ih, String.append_assoc]

/-- Python `str.join(sep, parts)`. -/
def joinSep (sep : String) : List String → String
  | [] => ""
  | [x] => x
  | x :: y :: t => x ++ sep ++ joinSep sep (y :: t)

/-- Join fragment lists with a separator fragment list (fragment-level
image of `str.join`). -/
def fragJoin (sep : List SqlFrag) : List (List SqlFrag) → List SqlFrag
  | [] => []
  | [x] => x
  | x :: y :: t => x ++ sep ++ fragJoin sep (y :: t)

theorem fstr_fragJoin (sep : List SqlFrag) (ls : List (List SqlFrag)) :
    fstr (fragJoin sep ls) = joinSep (fstr sep) (ls.map fstr) := by
  induction ls with
  | nil => simp [fragJoin, joinSep, fstr]
  | cons x t ih =>
    cases t with
    | nil => simp [fragJoin, joinSep]
    | cons y t' =>
      simp only [fragJoin, joinSep, List.map, fstr_append, String.append_assoc]
      rw [ih]
      simp [joinSep]

/-- Membership in a separator-join of fragment lists. -/
theorem mem_fragJoin {f : SqlFrag} {sep : List SqlFrag}
    {ls : List (List SqlFrag)} (h : f ∈ fragJoin sep ls) :
    f ∈ sep ∨ ∃ l ∈ ls, f ∈ l := by
  induction ls with
  | nil => simp [fragJoin] at h
  | cons x t ih =>
    cases t with
    | nil =>
      simp only [fragJoin] at h
      exact Or.inr ⟨x, by simp, h⟩
    | cons y t' =>
      simp only [fragJoin, List.append_assoc, List.mem_append] at h
      rcases h with h | h | h
      · exact Or.inr ⟨x, by simp, h⟩
      · exact Or.inl h
      · rcases ih h with h' | ⟨l, hl, hf⟩
        · exact Or.inl h'
        · exact Or.inr ⟨l, by simp [hl], hf⟩

/-- Python `str.strip()`: drop leading and trailing whitespace. -/
def pyStrip (s : String) : String :=
  String.mk (((s.data.dropWhile Char.isWhitespace).reverse.dropWhile
    Char.isWhitespace).reverse)

/-- Python `str(x)` of an optional string (f-string rendering: `None`
prints as `"None"`). -/
def pyStrOpt : Option String → String
  | none => "None"
  | some s => s

/-- Python `a or b` for two optional strings, rendered into an f-string
(`a` if truthy, else `str(b)`). -/
def orOptStr (a b : Option String) : String :=
  if oTruthy a then a.getD "" else pyStrOpt b

/-- Python `a or "latest"` for an optional string. -/
def orLit (a : Option String) (d : String) : String :=
  if oTruthy a then a.getD "" else d

/-- Python `str(x)` for a scalar `JVal` (used by f-string interpolation
of non-string predicate values). Containers print as opaque markers;
none of the compiled claims depends on their exact rendering. -/
def pyStr : JVal → String
  | .jnull => "None"
  | .jbool true => "True"
  | .jbool false => "False"
  | .jnum n => toString n
  | .jstr s => s
  | .jarr _ => "[...]"
  | .jobj _ => "\x7b...\x7d"

/-- `PostgresCompiler._map_field`, fragment-valued: the six known EOQL
field names map to fixed SQL column text, anything else passes through
as query-supplied text. -/
def mapFieldF (f : String) : SqlFrag :=
  if f = "claim_type" then .lit "claim_type"
  else if f = "source.type" then .lit "source_id"
  else if f = "epistemic.method" then .lit "method"
  else if f = "epistemic.certainty" then .lit "certainty"
  else if f = "term" then .lit "claim_content->>'term'"
  else if f = "value" then .lit "claim_content->>'value'"
  else .par f

/-- `PostgresCompiler._map_field`. -/
def mapField (f : String) : String := (mapFieldF f).str

/-- `PostgresCompiler._compile_predicate`, fragment-valued. Operators
`=`, `!=`, `IN`, `>=`, `>`, `<=`, `<`, `CONTAINS`, `IS NULL`,
`IS NOT NULL` map directly; unknown operators fall back to equality. -/
def compilePredicateF (pred : Predicate) : List SqlFrag :=
  if pred.op.toUpper = "=" then
    match pred.value with
    | .jstr s => [mapFieldF pred.field, .lit " = '", .par s, .lit "'"]
    | v => [mapFieldF pred.field, .lit " = ", .par (pyStr v)]
  else if pred.op.toUpper = "!=" then
    match pred.value with
    | .jstr s => [mapFieldF pred.field, .lit " != '", .par s, .lit "'"]
    | v => [mapFieldF pred.field, .lit " != ", .par (pyStr v)]
  else if pred.op.toUpper = "IN" then
    match pred.value with
    | .jarr l =>
        [mapFieldF pred.field, .lit " IN (",
         .par (joinSep ", " (l.map fun v =>
           match v with
           | .jstr s => "'" ++ s ++ "'"
           | v' => pyStr v')),
         .lit ")"]
    | v => [mapFieldF pred.field, .lit " IN (", .par (pyStr v), .lit ")"]
  else if pred.op.toUpper = ">=" ∨ pred.op.toUpper = ">" ∨
      pred.op.toUpper = "<=" ∨ pred.op.toUpper = "<" then
    match pred.value with
    | .jstr s =>
        [mapFieldF pred.field, .lit " ", .par pred.op.toUpper, .lit " '",
         .par s, .lit "'"]
    | v =>
        [mapFieldF pred.field, .lit " ", .par pred.op.toUpper, .lit " ",
         .par (pyStr v)]
  else if pred.op.toUpper = "CONTAINS" then
    [mapFieldF pred.field, .lit "::text ILIKE '%", .par (pyStr pred.value),
     .lit "%'"]
  else if pred.op.toUpper = "IS NULL" then
    [mapFieldF pred.field, .lit " IS NULL"]
  else if pred.op.toUpper = "IS NOT NULL" then
    [mapFieldF pred.field, .lit " IS NOT NULL"]
  else
    match pred.value with
    | .jstr s => [mapFieldF pred.field, .lit " = '", .par s, .lit "'"]
    | v => [mapFieldF pred.field, .lit " = ", .par (pyStr v)]

/-- `PostgresCompiler._compile_predicate`. -/
def compilePredicate (p : Predicate) : String := fstr (compilePredicateF p)

/-- `PostgresCompiler._compile_time_projection`, fragment-valued. -/
def compileTimeProjectionF (q : EOQLQuery) : List SqlFrag :=
  if q.time.kind = TimeKind.AS_OF then
    [.lit "event_replay AS (\n    SELECT *\n    FROM assertions\n    WHERE asserted_at <= '",
     .par (pyStrOpt q.time.as_of), .lit "'\n)"]
  else
    [.lit "event_replay AS (\n    SELECT *\n    FROM assertions\n    WHERE asserted_at BETWEEN '",
     .par (pyStrOpt q.time.start), .lit "' AND '",
     .par (pyStrOpt q.time.end_), .lit "'\n)"]

/-- `PostgresCompiler._compile_time_projection`. -/
def compileTimeProjection (q : EOQLQuery) : String :=
  fstr (compileTimeProjectionF q)

/-- `PostgresCompiler._compile_frame_application`, fragment-valued. -/
def compileFrameApplicationF (q : EOQLQuery) : List SqlFrag :=
  [.lit "framed_projection AS (\n    SELECT *\n    FROM event_replay\n    WHERE frame_id = '",
   .par q.frame.frame_id, .lit "'\n)"]

/-- `PostgresCompiler._compile_frame_application`. -/
def compileFrameApplication (q : EOQLQuery) : String :=
  fstr (compileFrameApplicationF q)

/-- `PostgresCompiler._compile_mode_filter`, fragment-valued. -/
def compileModeFilterF (q : EOQLQuery) : List SqlFrag :=
  if q.mode = Mode.GIVEN then
    [.lit "mode_filtered AS (\n    SELECT *\n    FROM framed_projection\n    WHERE assertion_mode = 'GIVEN'\n)"]
  else
    [.lit "mode_filtered AS (\n    SELECT *\n    FROM framed_projection\n)"]

/-- `PostgresCompiler._compile_mode_filter`. -/
def compileModeFilter (q : EOQLQuery) : String := fstr (compileModeFilterF q)

/-- The `conditions` local of `PostgresCompiler._compile_pattern`:
optional free-text condition, then the compiled `where` predicates. -/
def patternConditionsF (q : EOQLQuery) : List (List SqlFrag) :=
  (if oTruthy q.pattern.match_ then
    [[.lit "claim_content::text ILIKE '%",
      .par (pyStrOpt q.pattern.match_), .lit "%'"]]
   else [])
  ++ q.pattern.where_.map compilePredicateF

/-- The `where_clause` local of `PostgresCompiler._compile_pattern`. -/
def patternWhereF (q : EOQLQuery) : List SqlFrag :=
  if (patternConditionsF q).isEmpty then [.lit "TRUE"]
  else fragJoin [.lit " AND "] (patternConditionsF q)

/-- `PostgresCompiler._compile_pattern`, fragment-valued. -/
def compilePatternF (q : EOQLQuery) : List SqlFrag :=
  [.lit "pattern_filtered AS (\n    SELECT *\n    FROM mode_filtered\n    WHERE "]
  ++ patternWhereF q ++ [.lit "\n)"]

/-- `PostgresCompiler._compile_pattern`. -/
def compilePattern (q : EOQLQuery) : String := fstr (compilePatternF q)

/-- The `grounding_filter` local of
`PostgresCompiler._compile_grounding_traversal`. -/
def groundingFilterF (q : EOQLQuery) : List SqlFrag :=
  if ¬ q.grounding.grounded_by.isEmpty then
    [.lit "WHERE "]
    ++ fragJoin [.lit " AND "] (q.grounding.grounded_by.map compilePredicateF)
  else []

/-- `PostgresCompiler._compile_grounding_traversal`, fragment-valued. -/
def compileGroundingTraversalF (q : EOQLQuery) : List SqlFrag :=
  [.lit "grounding_traverse AS (\n    -- Base case: assertions with their direct grounding\n    SELECT\n        pf.assertion_id,\n        pf.claim_type,\n        pf.claim_content,\n        pf.subject_id,\n        pf.object_id,\n        pf.asserted_at,\n        pf.valid_from,\n        pf.valid_until,\n        pf.frame_id,\n        pf.frame_version,\n        pf.source_id,\n        pf.grounding_ref,\n        pf.certainty,\n        pf.method,\n        pf.visibility_scope,\n        pf.assertion_mode,\n        ARRAY[pf.grounding_ref] AS grounding_path,\n        1 AS grounding_depth\n    FROM pattern_filtered pf\n    WHERE pf.grounding_ref IS NOT NULL\n\n    UNION ALL\n\n    -- Recursive case: follow grounding chains\n    SELECT\n        gt.assertion_id,\n        gt.claim_type,\n        gt.claim_content,\n        gt.subject_id,\n        gt.object_id,\n        gt.asserted_at,\n        gt.valid_from,\n        gt.valid_until,\n        gt.frame_id,\n        gt.frame_version,\n        gt.source_id,\n        gc.grounded_by_id AS grounding_ref,\n        gt.certainty,\n        gt.method,\n        gt.visibility_scope,\n        gt.assertion_mode,\n        gt.grounding_path || gc.grounded_by_id,\n        gt.grounding_depth + 1\n    FROM grounding_traverse gt\n    JOIN grounding_chains gc ON gt.grounding_ref = gc.target_id\n    WHERE gt.grounding_depth < ",
   .par (toString q.grounding.max_depth),
   .lit "\n    AND NOT gc.grounded_by_id = ANY(gt.grounding_path)  -- Prevent cycles\n),\nwith_grounding AS (\n    -- Select deepest grounding for each assertion\n    SELECT DISTINCT ON (assertion_id)\n        assertion_id,\n        claim_type,\n        claim_content,\n        subject_id,\n        object_id,\n        asserted_at,\n        valid_from,\n        valid_until,\n        frame_id,\n        frame_version,\n        source_id,\n        grounding_ref,\n        certainty,\n        method,\n        visibility_scope,\n        assertion_mode,\n        grounding_path,\n        grounding_depth\n    FROM grounding_traverse\n    "]
  ++ groundingFilterF q
  ++ [.lit "\n\n    UNION ALL\n\n    -- Include assertions without grounding (marked as weakly grounded)\n    SELECT\n        pf.assertion_id,\n        pf.claim_type,\n        pf.claim_content,\n        pf.subject_id,\n        pf.object_id,\n        pf.asserted_at,\n        pf.valid_from,\n        pf.valid_until,\n        pf.frame_id,\n        pf.frame_version,\n        pf.source_id,\n        pf.grounding_ref,\n        pf.certainty,\n        pf.method,\n        pf.visibility_scope,\n        pf.assertion_mode,\n        ARRAY[]::uuid[] AS grounding_path,\n        0 AS grounding_depth\n    FROM pattern_filtered pf\n    WHERE pf.grounding_ref IS NULL\n)"]

/-- `PostgresCompiler._compile_grounding_traversal`. -/
def compileGroundingTraversal (q : EOQLQuery) : String :=
  fstr (compileGroundingTraversalF q)

/-- `PostgresCompiler._compile_visibility_cte`, fragment-valued. -/
def compileVisibilityCteF (q : EOQLQuery) : List SqlFrag :=
  if q.visibility = Visibility.VISIBLE then
    [.lit "visibility_filtered AS (\n    SELECT *\n    FROM with_grounding\n    WHERE visibility_scope = 'visible'\n)"]
  else
    [.lit "visibility_filtered AS (\n    SELECT\n        *,\n        CASE\n            WHEN visibility_scope != 'visible'\n            THEN 'hidden:' || visibility_scope\n            ELSE NULL\n        END AS visibility_note\n    FROM with_grounding\n)"]

/-- `PostgresCompiler._compile_visibility_cte`. -/
def compileVisibilityCte (q : EOQLQuery) : String :=
  fstr (compileVisibilityCteF q)

/-- The `scope_filter` local of
`PostgresCompiler._compile_absence_computation`. -/
def scopeFilterF (ab : AbsenceSpec) : List SqlFrag :=
  match ab.scope with
  | some scope =>
    if ¬ scope.isEmpty then
      [.lit "AND "]
      ++ fragJoin [.lit " AND "] (scope.map fun kv =>
          match kv.2 with
          | .jstr s =>
              [.lit "e.properties->'", .par kv.1, .lit "' = '\"",
               .par s, .lit "\"'"]
          | v =>
              [.lit "e.properties->'", .par kv.1, .lit "' = '",
               .par (pyStr v), .lit "'"])
    else []
  | none => []

/-- `PostgresCompiler._compile_absence_computation`, fragment-valued.
Only called when `q.absence` is set; the absence spec is passed
explicitly (the Python reads `q.absence.expectation`). -/
def compileAbsenceComputationF (q : EOQLQuery) (ab : AbsenceSpec) :
    List SqlFrag :=
  [.lit "expected_entities AS (\n    -- Get entities that match the expectation scope\n    SELECT e.entity_id, e.entity_type, e.label\n    FROM entities e\n    JOIN expectations exp ON exp.expectation_id = '",
   .par ab.expectation.expectation_id,
   .lit "'\n    WHERE (exp.rule->>'entity_filter' IS NULL\n           OR e.entity_type = exp.rule->>'entity_filter')\n    "]
  ++ scopeFilterF ab
  ++ [.lit "\n),\nactual_claims AS (\n    -- Get claims that satisfy the expectation\n    SELECT DISTINCT vf.subject_id\n    FROM visibility_filtered vf\n    JOIN expectations exp ON exp.expectation_id = '",
      .par ab.expectation.expectation_id,
      .lit "'\n    WHERE vf.claim_type = exp.rule->>'claim_type'\n),\ncomputed_absences AS (\n    -- Entities that should have claims but don't\n    SELECT\n        uuid_generate_v4() AS absence_id,\n        '",
      .par ab.expectation.expectation_id,
      .lit "' AS expectation_id,\n        '",
      .par (orLit ab.expectation.version "latest"),
      .lit "' AS expectation_version,\n        ee.entity_id AS expected_entity_id,\n        (SELECT rule->>'claim_type' FROM expectations WHERE expectation_id = '",
      .par ab.expectation.expectation_id,
      .lit "') AS expected_claim_type,\n        '",
      .par (orOptStr q.time.start q.time.as_of),
      .lit "'::timestamptz AS window_start,\n        '",
      .par (orOptStr q.time.end_ q.time.as_of),
      .lit "'::timestamptz AS window_end,\n        '",
      .par q.frame.frame_id,
      .lit "' AS frame_id,\n        '",
      .par (orLit q.frame.version "latest"),
      .lit "' AS frame_version,\n        NOW() AS computed_at\n    FROM expected_entities ee\n    LEFT JOIN actual_claims ac ON ee.entity_id = ac.subject_id\n    WHERE ac.subject_id IS NULL\n)"]

/-- `PostgresCompiler._compile_absence_computation`. -/
def compileAbsenceComputation (q : EOQLQuery) (ab : AbsenceSpec) : String :=
  fstr (compileAbsenceComputationF q ab)

/-- `PostgresCompiler._compile_final_projection` (select clause, from
clause). All its output is fixed template text. -/
def compileFinalProjection (q : EOQLQuery) : String × String :=
  if q.target = Target.ABSENCES ∧ q.absence ≠ none then
    ("*", "computed_absences")
  else if q.target = Target.CLAIMS then
    ("\n    assertion_id,\n    claim_type,\n    claim_content,\n    subject_id,\n    object_id,\n    asserted_at,\n    valid_from,\n    valid_until,\n    frame_id,\n    frame_version,\n    source_id,\n    certainty,\n    method,\n    visibility_scope,\n    assertion_mode,\n    grounding_path,\n    grounding_depth",
     "visibility_filtered")
  else if q.target = Target.ENTITIES then
    ("\n    DISTINCT subject_id AS entity_id,\n    claim_type,\n    claim_content,\n    frame_id",
     "visibility_filtered")
  else if q.target = Target.ASSERTIONS then
    ("*", "visibility_filtered")
  else
    ("*", "visibility_filtered")

/-- `PostgresCompiler._compile_conflict_policy`. -/
def compileConflictPolicy (q : EOQLQuery) : String :=
  if q.returns.conflict_policy = ConflictPolicy.EXPOSE_ALL then ""
  else if q.returns.conflict_policy = ConflictPolicy.CLUSTER then
    "-- conflict clustering applied downstream"
  else if q.returns.conflict_policy = ConflictPolicy.RANK then
    "-- ranked results, alternates preserved"
  else "-- single selection WITH explicit rule"

/-- The CTE list built by `PostgresCompiler.compile` (phases 1-7), as
fragment lists. -/
def compileCtesF (q : EOQLQuery) : List (List SqlFrag) :=
  compileTimeProjectionF q ::
  compileFrameApplicationF q ::
  compileModeFilterF q ::
  (if ¬ q.pattern.where_.isEmpty ∨ oTruthy q.pattern.match_ then
     compilePatternF q
   else
     [.lit "pattern_filtered AS (\n    SELECT * FROM mode_filtered\n)"]) ::
  (if q.grounding.trace then
     compileGroundingTraversalF q
   else
     [.lit "with_grounding AS (\n    SELECT\n        pf.*,\n        NULL::uuid[] AS grounding_path,\n        0 AS grounding_depth\n    FROM pattern_filtered pf\n)"]) ::
  compileVisibilityCteF q ::
  (match q.absence with
   | some ab =>
     if q.target = Target.ABSENCES then [compileAbsenceComputationF q ab]
     else []
   | none => [])

/-- `PostgresCompiler.compile`'s `notes` list (built alongside the
CTEs). -/
def compileNotes (q : EOQLQuery) : List String :=
  ["Time projection enforced via event replay CTE",
   "Frame '" ++ q.frame.frame_id ++ "' applied explicitly",
   "Mode '" ++ q.mode.value ++ "' applied"]
  ++ (if ¬ q.pattern.where_.isEmpty ∨ oTruthy q.pattern.match_ then
        ["Pattern filters applied"] else [])
  ++ (if q.grounding.trace then
        ["Grounding trace enabled (depth: "
         ++ toString q.grounding.max_depth ++ ")"] else [])
  ++ ["Visibility '" ++ q.visibility.value ++ "' applied"]
  ++ (match q.absence with
      | some _ =>
        if q.target = Target.ABSENCES then
          ["Absence computed from expectation"] else []
      | none => [])
  ++ (if compileConflictPolicy q ≠ "" then
        ["Conflict policy preserved (no silent collapse)"] else [])

/-- The full fragment sequence of `PostgresCompiler.compile`'s SQL
f-string (before `.strip()`). -/
def compileFrags (q : EOQLQuery) : List SqlFrag :=
  SqlFrag.lit "WITH\n" ::
    (fragJoin [SqlFrag.lit ",\n"] (compileCtesF q)
     ++ [SqlFrag.lit "\nSELECT\n    ", SqlFrag.lit (compileFinalProjection q).1,
         SqlFrag.lit "\nFROM ", SqlFrag.lit (compileFinalProjection q).2,
         SqlFrag.lit "\n", SqlFrag.lit (compileConflictPolicy q)])

/-- `PostgresCompiler.compile`: compile an EOQL query to a Postgres SQL
plan.  `params` is never written to (the compiler interpolates values
directly into the SQL text), and the `context` dict records the
epistemic execution context. -/
def compile (q : EOQLQuery) : SQLPlan :=
  let ctes : List String := (compileCtesF q).map fstr
  let ctesSql := joinSep ",\n" ctes
  let sel := compileFinalProjection q
  let conflictGuard := compileConflictPolicy q
  let sql := "WITH\n" ++ ctesSql ++ "\nSELECT\n    " ++ sel.1
    ++ "\nFROM " ++ sel.2 ++ "\n" ++ conflictGuard
  { sql := pyStrip sql
    params := []
    notes := compileNotes q
    context :=
      [("frame_id", q.frame.frame_id),
       ("frame_version", orLit q.frame.version "latest"),
       ("time_projection", q.time.kind.value),
       ("time_value",
        if oTruthy q.time.as_of then (q.time.as_of).getD ""
        else pyStrOpt q.time.start ++ " - " ++ pyStrOpt q.time.end_),
       ("visibility", q.visibility.value),
       ("mode", q.mode.value),
       ("conflict_policy", q.returns.conflict_policy.value)] }

theorem compile_sql_eq_frags (q : EOQLQuery) :
    (compile q).sql = pyStrip (fstr (compileFrags q)) := by
  unfold compile compileFrags
  simp only [fstr, fstr_append, fstr_fragJoin, SqlFrag.str]
  simp [String.append_assoc]

/-- A fixed base query used as the concrete input of several witnesses:
claims, GIVEN, VISIBLE, frame F_default, AS_OF 2025-12-27 (the query of
the spec §8 scenario). -/
def qBase : EOQLQuery :=
  { target := Target.CLAIMS
    mode := Mode.GIVEN
    visibility := Visibility.VISIBLE
    frame := { frame_id := "F_default", version := some "latest" }
    time := TimeWindow.asof "2025-12-27T00:00:00Z" }

/-- C2: compilation is a pure, deterministic function of the query: for
every valid query, two calls of `PostgresCompiler.compile` return plans
with identical `sql`, `params`, `notes` and `context` (the source reads
only `q`; it touches no clock, call order, or hidden state, so its
shallow embedding is a function and repeated application is literally
equal). -/
theorem C2_compile_deterministic (q : EOQLQuery)
    (hvalid : validateErrors q = []) :
    (compile q).sql = (compile q).sql ∧
    (compile q).params = (compile q).params ∧
    (compile q).notes = (compile q).notes ∧
    (compile q).context = (compile q).context ∧
    compile q = compile q :=
  ⟨rfl, rfl, rfl, rfl, rfl⟩

/-- Witness for C2 at the concrete valid base query. -/
theorem C2_compile_deterministic_witness :
    validateErrors qBase = [] ∧ compile qBase = compile qBase :=
  ⟨rfl, (C2_compile_deterministic qBase rfl).2.2.2.2⟩

-- ---------- Collapsing-construct scanning (spec §8, claim C3) ----------

/-- Does `pat` occur as a contiguous sublist of `s`? -/
def listHasSub (pat : List Char) : List Char → Bool
  | [] => pat.isPrefixOf []
  | c :: t => pat.isPrefixOf (c :: t) || listHasSub pat t

/-- Does `pat` occur as a substring of `s`? -/
def hasSub (s pat : String) : Bool := listHasSub pat.data s.data

/-- The text allowed to follow an occurrence of `DISTINCT`: the
column-scoped `DISTINCT ON (assertion_id)` (deepest-grounding-path
selection under trace) and the sanctioned entity-identity deduplication
`DISTINCT subject_id` / `DISTINCT vf.subject_id`. -/
def scopedOk (rest : List Char) : Bool :=
  " ON (assertion_id)".data.isPrefixOf rest ||
  " subject_id".data.isPrefixOf rest ||
  " vf.subject_id".data.isPrefixOf rest

/-- Scan: every occurrence of `DISTINCT` is scoped. -/
def distinctScopedAux : List Char → Bool
  | [] => true
  | c :: t =>
    if "DISTINCT".data.isPrefixOf (c :: t) then
      scopedOk (List.drop 8 (c :: t)) && distinctScopedAux t
    else distinctScopedAux t

/-- Every occurrence of `DISTINCT` in `s` is scoped. -/
def distinctScoped (s : String) : Bool := distinctScopedAux s.data

/-- A string is free of collapsing constructs: no `MAX(`, `MIN(`,
`LIMIT 1`, `ROW_NUMBER` or `FIRST_VALUE`, and any `DISTINCT` is
scoped. -/
def cleanLit (s : String) : Bool :=
  !(hasSub s "MAX(") && !(hasSub s "MIN(") && !(hasSub s "LIMIT 1") &&
  !(hasSub s "ROW_NUMBER") && !(hasSub s "FIRST_VALUE") && distinctScoped s

/-- All compiler-written (`lit`) fragments of a fragment list are free
of collapsing constructs. -/
def litsClean (l : List SqlFrag) : Prop :=
  ∀ f ∈ l, f.isLit = true → cleanLit f.str = true

theorem litsClean_append {a b : List SqlFrag} (ha : litsClean a)
    (hb : litsClean b) : litsClean (a ++ b) := by
  intro f hf
  rcases List.mem_append.mp hf with h | h
  · exact ha f h
  · exact hb f h

theorem litsClean_fragJoin {sep : List SqlFrag} {ls : List (List SqlFrag)}
    (hs : litsClean sep) (h : ∀ l ∈ ls, litsClean l) :
    litsClean (fragJoin sep ls) := by
  intro f hf
  rcases mem_fragJoin hf with hf' | ⟨l, hl, hf'⟩
  · exact hs f hf'
  · exact h l hl f hf'

/-- Shape check used to verify fragment lists: query-supplied (`par`)
fragments are unconstrained, compiler-written (`lit`) fragments must be
free of collapsing constructs. -/
def fragShapeOk : SqlFrag → Bool
  | .par _ => true
  | .lit s => cleanLit s

theorem fragShapeOk_par (s : String) : fragShapeOk (SqlFrag.par s) = true := rfl

theorem litsClean_of_all {l : List SqlFrag} (h : l.all fragShapeOk = true) :
    litsClean l := by
  intro f hf hlit
  have hx := List.all_eq_true.mp h f hf
  cases f with
  | par s => exact Bool.noConfusion hlit
  | lit s => simpa [fragShapeOk] using hx

theorem fragShapeOk_mapFieldF (s : String) :
    fragShapeOk (mapFieldF s) = true := by
  unfold mapFieldF
  split_ifs <;> rfl

set_option maxHeartbeats 1000000 in
theorem litsClean_predicate (p : Predicate) :
    litsClean (compilePredicateF p) := by
  unfold compilePredicateF
  split_ifs <;> rcases hv : p.value with _ | b | n | s | l | o <;>
    apply litsClean_of_all <;>
    simp only [List.all_cons, List.all_nil, fragShapeOk_par,
      fragShapeOk_mapFieldF, Bool.and_true, Bool.true_and] <;>
    try decide

theorem litsClean_timeF (q : EOQLQuery) :
    litsClean (compileTimeProjectionF q) := by
  unfold compileTimeProjectionF
  split_ifs <;>
    apply litsClean_of_all <;>
    simp only [List.all_cons, List.all_nil, fragShapeOk_par,
      Bool.and_true, Bool.true_and] <;>
    try decide

theorem litsClean_frameF (q : EOQLQuery) :
    litsClean (compileFrameApplicationF q) := by
  apply litsClean_of_all
  simp only [compileFrameApplicationF, List.all_cons, List.all_nil,
    fragShapeOk_par, Bool.and_true, Bool.true_and]
  try decide

theorem litsClean_modeF (q : EOQLQuery) :
    litsClean (compileModeFilterF q) := by
  unfold compileModeFilterF
  split_ifs <;> exact litsClean_of_all (by decide)

theorem litsClean_patternConditionsF (q : EOQLQuery) :
    ∀ l ∈ patternConditionsF q, litsClean l := by
  intro l hl
  unfold patternConditionsF at hl
  rcases List.mem_append.mp hl with h | h
  · split_ifs at h
    · simp only [List.mem_singleton] at h
      subst h
      apply litsClean_of_all
      simp only [List.all_cons, List.all_nil, fragShapeOk_par,
        Bool.and_true, Bool.true_and]
      try decide
    · exact absurd h (List.not_mem_nil l)
  · obtain ⟨p, _, rfl⟩ := List.mem_map.mp h
    exact litsClean_predicate p

theorem litsClean_patternWhereF (q : EOQLQuery) :
    litsClean (patternWhereF q) := by
  unfold patternWhereF
  split_ifs
  all_goals try (refine litsClean_of_all ?_; decide)
  all_goals exact (litsClean_fragJoin (litsClean_of_all (by decide))
    (litsClean_patternConditionsF q))

theorem litsClean_patternF (q : EOQLQuery) :
    litsClean (compilePatternF q) := by
  unfold compilePatternF
  exact litsClean_append
    (litsClean_append (litsClean_of_all (by decide))
      (litsClean_patternWhereF q))
    (litsClean_of_all (by decide))

theorem litsClean_groundingFilterF (q : EOQLQuery) :
    litsClean (groundingFilterF q) := by
  unfold groundingFilterF
  split_ifs
  all_goals try (refine litsClean_of_all ?_; decide)
  all_goals exact (litsClean_append (litsClean_of_all (by decide))
    (litsClean_fragJoin (litsClean_of_all (by decide))
      (fun l hl => by
        obtain ⟨p, _, rfl⟩ := List.mem_map.mp hl
        exact litsClean_predicate p)))

set_option maxRecDepth 100000 in
set_option maxHeartbeats 4000000 in
theorem litsClean_groundingF (q : EOQLQuery) :
    litsClean (compileGroundingTraversalF q) := by
  unfold compileGroundingTraversalF
  refine litsClean_append (litsClean_append ?_ (litsClean_groundingFilterF q)) ?_
  · apply litsClean_of_all
    simp only [List.all_cons, List.all_nil, fragShapeOk_par,
      Bool.and_true, Bool.true_and]
    try decide
  · exact litsClean_of_all (by decide)

theorem litsClean_visibilityF (q : EOQLQuery) :
    litsClean (compileVisibilityCteF q) := by
  unfold compileVisibilityCteF
  split_ifs <;> exact litsClean_of_all (by decide)

theorem litsClean_scopeFilterF (ab : AbsenceSpec) :
    litsClean (scopeFilterF ab) := by
  unfold scopeFilterF
  rcases hsc : ab.scope with _ | scope <;> simp only [hsc]
  · exact fun f hf => absurd hf (List.not_mem_nil f)
  · split_ifs
    all_goals try exact fun f hf => absurd hf (List.not_mem_nil f)
    all_goals exact (litsClean_append (litsClean_of_all (by decide))
      (litsClean_fragJoin (litsClean_of_all (by decide))
        (fun l hl => by
          obtain ⟨kv, _, rfl⟩ := List.mem_map.mp hl
          rcases kv.2 with _ | b | n | s | l' | o <;>
            apply litsClean_of_all <;>
            simp only [List.all_cons, List.all_nil, fragShapeOk_par,
              Bool.and_true, Bool.true_and] <;>
            try decide)))

set_option maxRecDepth 100000 in
set_option maxHeartbeats 4000000 in
theorem litsClean_absenceF (q : EOQLQuery) (ab : AbsenceSpec) :
    litsClean (compileAbsenceComputationF q ab) := by
  unfold compileAbsenceComputationF
  refine litsClean_append (litsClean_append ?_ (litsClean_scopeFilterF ab)) ?_
  · apply litsClean_of_all
    simp only [List.all_cons, List.all_nil, fragShapeOk_par,
      Bool.and_true, Bool.true_and]
    try decide
  · apply litsClean_of_all
    simp only [List.all_cons, List.all_nil, fragShapeOk_par,
      Bool.and_true, Bool.true_and]
    try decide

theorem litsClean_ctesF (q : EOQLQuery) :
    ∀ l ∈ compileCtesF q, litsClean l := by
  intro l hl
  unfold compileCtesF at hl
  simp only [List.mem_cons] at hl
  rcases hl with rfl | rfl | rfl | rfl | rfl | rfl | hl
  · exact litsClean_timeF q
  · exact litsClean_frameF q
  · exact litsClean_modeF q
  · split_ifs
    all_goals try (refine litsClean_of_all ?_; decide)
    all_goals exact litsClean_patternF q
  · split_ifs
    all_goals try (refine litsClean_of_all ?_; decide)
    all_goals exact litsClean_groundingF q
  · exact litsClean_visibilityF q
  · rcases hab : q.absence with _ | ab <;> simp only [hab] at hl
    · simp at hl
    · split_ifs at hl
      · simp only [List.mem_singleton] at hl
        subst hl
        exact litsClean_absenceF q ab
      · exact absurd hl (List.not_mem_nil l)

set_option maxRecDepth 100000 in
theorem cleanLit_finalProjection1 (q : EOQLQuery) :
    cleanLit (compileFinalProjection q).1 = true := by
  unfold compileFinalProjection
  split_ifs <;> decide

theorem cleanLit_finalProjection2 (q : EOQLQuery) :
    cleanLit (compileFinalProjection q).2 = true := by
  unfold compileFinalProjection
  split_ifs <;> decide

theorem cleanLit_conflictPolicy (q : EOQLQuery) :
    cleanLit (compileConflictPolicy q) = true := by
  unfold compileConflictPolicy
  split_ifs <;> decide

theorem litsClean_compileFrags (q : EOQLQuery) :
    litsClean (compileFrags q) := by
  unfold compileFrags
  intro f hf
  rcases List.mem_cons.mp hf with rfl | hf_
  · intro _
    decide
  · rcases List.mem_append.mp hf_ with h | h
    · exact litsClean_fragJoin (litsClean_of_all (by decide))
        (litsClean_ctesF q) f h
    · intro hlit
      simp only [List.mem_cons, List.not_mem_nil, or_false] at h
      rcases h with rfl | rfl | rfl | rfl | rfl | rfl
      · decide
      · exact cleanLit_finalProjection1 q
      · decide
      · exact cleanLit_finalProjection2 q
      · decide
      · exact cleanLit_conflictPolicy q

/-- C3 (amended): for every valid AS_OF query, the compiled plan's first
stage is the `event_replay` CTE filtering the assertions table with
`asserted_at <= `the query's `as_of` value, and every compiler-written
template fragment of the SQL — including the trace-enabled
`DISTINCT ON (assertion_id)` grounding stage and the ENTITIES final
projection — is free of `MAX(`, `MIN(`, `LIMIT 1`, `ROW_NUMBER`,
`FIRST_VALUE` and unscoped `DISTINCT`; the full SQL string is exactly
the stripped concatenation of those fragments with the query-supplied
interpolated strings.  (The claim's stronger whole-string form fails:
interpolated query text can inject the forbidden tokens — see the
counterexample.) -/
theorem C3_asof_template_no_collapse (q : EOQLQuery)
    (hvalid : validateErrors q = []) (hk : q.time.kind = TimeKind.AS_OF) :
    (∃ ts, q.time.as_of = some ts ∧ ts ≠ "" ∧
      (compileCtesF q).head? = some
        [SqlFrag.lit "event_replay AS (\n    SELECT *\n    FROM assertions\n    WHERE asserted_at <= '",
         SqlFrag.par ts, SqlFrag.lit "'\n)"]) ∧
    (compile q).sql = pyStrip (fstr (compileFrags q)) ∧
    (∀ f ∈ compileFrags q, f.isLit = true → cleanLit f.str = true) := by
  refine ⟨?_, compile_sql_eq_frags q, litsClean_compileFrags q⟩
  obtain ⟨_, htime, _⟩ := (validateErrors_nil_iff q).mp hvalid
  unfold InvTime at htime
  rw [hk] at htime
  obtain ⟨hao, _, _⟩ := htime
  rcases hts : q.time.as_of with _ | ts
  · rw [hts] at hao
    simp [oTruthy] at hao
  · refine ⟨ts, rfl, ?_, ?_⟩
    · rw [hts] at hao
      intro he
      subst he
      simp [oTruthy, sTruthy] at hao
      exact absurd hao (by decide)
    · unfold compileCtesF compileTimeProjectionF
      simp [hk, hts, pyStrOpt]

/-- Concrete valid AS_OF query whose free-text pattern injects `MAX(`
into the compiled SQL. -/
def qInj : EOQLQuery :=
  { qBase with pattern := { match_ := some "MAX(" } }

/-- C3 counterexample to the claim as stated: `qInj` is valid and AS_OF,
yet its compiled SQL string contains `MAX(` — the compiler interpolates
query strings directly into the SQL (f-strings, no escaping), so
whole-string token absence fails for every valid query. -/
theorem C3_claim_counterexample :
    validateErrors qInj = [] ∧ qInj.time.kind = TimeKind.AS_OF ∧
    hasSub (compile qInj).sql "MAX(" = true :=
  ⟨rfl, rfl, by decide⟩

/-- Witness for C3 at the concrete valid base query. -/
theorem C3_asof_template_no_collapse_witness :
    validateErrors qBase = [] ∧
    ((compile qBase).sql = pyStrip (fstr (compileFrags qBase)) ∧
     ∀ f ∈ compileFrags qBase, f.isLit = true → cleanLit f.str = true) :=
  ⟨rfl, (C3_asof_template_no_collapse qBase rfl rfl).2⟩

-- ---------- Serialization (src/eoql/ir/serialize.py) ----------

/-- Dict lookup (`data[k]` / `data.get(k)`): first entry with key `k`. -/
def jget : List (String × JVal) → String → Option JVal
  | [], _ => none
  | (k', v) :: t, k => if k' = k then some v else jget t k

/-- Serialization of an optional string field (`None` becomes JSON
null). -/
def optStrJ : Option String → JVal
  | none => JVal.jnull
  | some s => JVal.jstr s

/-- `asdict` of a `Predicate`. -/
def predToDict (p : Predicate) : JVal :=
  .jobj [("field", .jstr p.field), ("op", .jstr p.op), ("value", p.value)]

/-- `asdict` of a `Pattern` (tuples serialize as JSON arrays). -/
def patternToDict (pt : Pattern) : JVal :=
  .jobj [("match", optStrJ pt.match_),
         ("where", .jarr (pt.where_.map predToDict))]

/-- `asdict` of a `GroundingSpec`. -/
def groundingToDict (g : GroundingSpec) : JVal :=
  .jobj [("trace", .jbool g.trace), ("max_depth", .jnum g.max_depth),
         ("grounded_by", .jarr (g.grounded_by.map predToDict))]

/-- `asdict` of an optional `SelectionRule`. -/
def selectionToDict : Option SelectionRule → JVal
  | none => JVal.jnull
  | some r => .jobj [("rule_id", .jstr r.rule_id), ("params", .jobj r.params)]

/-- `asdict` of a `ReturnSpec` (enums serialize as their string literal
values). -/
def returnsToDict (r : ReturnSpec) : JVal :=
  .jobj [("include_context", .jbool r.include_context),
         ("include_frame", .jbool r.include_frame),
         ("include_visibility_notes", .jbool r.include_visibility_notes),
         ("include_conflicts", .jbool r.include_conflicts),
         ("conflict_policy", .jstr r.conflict_policy.value),
         ("selection_rule", selectionToDict r.selection_rule)]

/-- `asdict` of an `ExpectationRef`. -/
def expectationToDict (e : ExpectationRef) : JVal :=
  .jobj [("expectation_id", .jstr e.expectation_id),
         ("version", optStrJ e.version)]

/-- `asdict` of an optional `AbsenceSpec`. -/
def absenceToDict : Option AbsenceSpec → JVal
  | none => JVal.jnull
  | some a =>
    .jobj [("expectation", expectationToDict a.expectation),
           ("scope", match a.scope with
                     | none => JVal.jnull
                     | some sc => JVal.jobj sc),
           ("deadline_hours", match a.deadline_hours with
                              | none => JVal.jnull
                              | some n => JVal.jnum n)]

/-- `asdict` of a `FrameRef`. -/
def frameToDict (f : FrameRef) : JVal :=
  .jobj [("frame_id", .jstr f.frame_id), ("version", optStrJ f.version)]

/-- `asdict` of a `TimeWindow`. -/
def timeToDict (t : TimeWindow) : JVal :=
  .jobj [("kind", .jstr t.kind.value), ("as_of", optStrJ t.as_of),
         ("start", optStrJ t.start), ("end", optStrJ t.end_)]

/-- `to_dict` / `to_json` (src/eoql/ir/serialize.py): the JSON document
an `EOQLQuery` serializes to, modelled at the JSON-value level (the
text layer `json.dumps`/`json.loads` is the standard library).
`asdict` emits every dataclass field in declaration order; `str`-Enums
serialize as their literal values; tuples as arrays; `None` as null. -/
def to_dict (q : EOQLQuery) : List (String × JVal) :=
  [("target", .jstr q.target.value),
   ("mode", .jstr q.mode.value),
   ("visibility", .jstr q.visibility.value),
   ("frame", frameToDict q.frame),
   ("time", timeToDict q.time),
   ("pattern", patternToDict q.pattern),
   ("grounding", groundingToDict q.grounding),
   ("absence", absenceToDict q.absence),
   ("returns", returnsToDict q.returns)]

/-- `data[k]`: KeyError (re-raised as ValueError) when missing. -/
def getItem (obj : List (String × JVal)) (k : String) : Except String JVal :=
  match jget obj k with
  | some v => Except.ok v
  | none => Except.error ("Missing required field: " ++ k)

/-- Require a JSON object (a non-dict raises TypeError in the Python,
re-raised as ValueError). -/
def asObj : JVal → Except String (List (String × JVal))
  | .jobj l => Except.ok l
  | _ => Except.error "Invalid data format"

/-- Require a JSON array. -/
def asArr : JVal → Except String (List JVal)
  | .jarr l => Except.ok l
  | _ => Except.error "Invalid data format"

/-- Require a JSON string.  (The Python stores the raw value without a
type check; the model restricts string-typed IR fields to the JSON
shapes the IR serializes to.) -/
def asStr : JVal → Except String String
  | .jstr s => Except.ok s
  | _ => Except.error "Invalid data format"

/-- Require a JSON string or null (optional-string IR fields). -/
def asOptStr : JVal → Except String (Option String)
  | .jnull => Except.ok none
  | .jstr s => Except.ok (some s)
  | _ => Except.error "Invalid data format"

/-- Require a JSON boolean. -/
def asBool : JVal → Except String Bool
  | .jbool b => Except.ok b
  | _ => Except.error "Invalid data format"

/-- Require a JSON integer. -/
def asInt : JVal → Except String Int
  | .jnum n => Except.ok n
  | _ => Except.error "Invalid data format"

/-- Require a JSON object or null (`AbsenceSpec.scope`). -/
def asOptObj : JVal → Except String (Option (List (String × JVal)))
  | .jnull => Except.ok none
  | .jobj l => Except.ok (some l)
  | _ => Except.error "Invalid data format"

/-- Require a JSON integer or null (`AbsenceSpec.deadline_hours`). -/
def asOptInt : JVal → Except String (Option Int)
  | .jnull => Except.ok none
  | .jnum n => Except.ok (some n)
  | _ => Except.error "Invalid data format"

/-- `Target(value)`: enum construction, ValueError on a bad literal. -/
def parseTarget (v : JVal) : Except String Target :=
  if v = .jstr "CLAIMS" then Except.ok Target.CLAIMS
  else if v = .jstr "EDGES" then Except.ok Target.EDGES
  else if v = .jstr "ENTITIES" then Except.ok Target.ENTITIES
  else if v = .jstr "ASSERTIONS" then Except.ok Target.ASSERTIONS
  else if v = .jstr "ABSENCES" then Except.ok Target.ABSENCES
  else Except.error "Invalid data format"

/-- `Mode(value)`. -/
def parseMode (v : JVal) : Except String Mode :=
  if v = .jstr "GIVEN" then Except.ok Mode.GIVEN
  else if v = .jstr "MEANT" then Except.ok Mode.MEANT
  else Except.error "Invalid data format"

/-- `Visibility(value)`. -/
def parseVisibility (v : JVal) : Except String Visibility :=
  if v = .jstr "VISIBLE" then Except.ok Visibility.VISIBLE
  else if v = .jstr "EXISTS" then Except.ok Visibility.EXISTS
  else Except.error "Invalid data format"

/-- `TimeKind(value)`. -/
def parseTimeKind (v : JVal) : Except String TimeKind :=
  if v = .jstr "AS_OF" then Except.ok TimeKind.AS_OF
  else if v = .jstr "BETWEEN" then Except.ok TimeKind.BETWEEN
  else Except.error "Invalid data format"

/-- `ConflictPolicy(value)`. -/
def parseConflictPolicy (v : JVal) : Except String ConflictPolicy :=
  if v = .jstr "EXPOSE_ALL" then Except.ok ConflictPolicy.EXPOSE_ALL
  else if v = .jstr "CLUSTER" then Except.ok ConflictPolicy.CLUSTER
  else if v = .jstr "RANK" then Except.ok ConflictPolicy.RANK
  else if v = .jstr "PICK_ONE" then Except.ok ConflictPolicy.PICK_ONE
  else Except.error "Invalid data format"

/-- The predicate reconstruction of `from_dict`:
`Predicate(field=p["field"], op=p["op"], value=p["value"])`. -/
def parsePredicate (v : JVal) : Except String Predicate := do
  let o ← asObj v
  let f ← asStr (← getItem o "field")
  let op ← asStr (← getItem o "op")
  let val ← getItem o "value"
  return { field := f, op := op, value := val }

/-- Parse a list of serialized predicates (the generator expression in
`from_dict`). -/
def parsePredList : List JVal → Except String (List Predicate)
  | [] => Except.ok []
  | v :: t => do
    let p ← parsePredicate v
    let ps ← parsePredList t
    return p :: ps

/-- `Except` bind on a success, for rewriting `do` blocks. -/
theorem exbind_ok {α β ε : Type} (a : α) (f : α → Except ε β) :
    (Except.ok a : Except ε α) >>= f = f a := rfl

/-- `Except` map on a success, for rewriting `do` blocks. -/
theorem exmap_ok {α β ε : Type} (g : α → β) (a : α) :
    (g <$> (Except.ok a : Except ε α)) = Except.ok (g a) := rfl

/-- `Except` pure, for rewriting `do` blocks. -/
theorem expure {α ε : Type} (a : α) :
    (pure a : Except ε α) = Except.ok a := rfl

/-- `from_dict`, frame block. -/
def fromDictFrame (data : List (String × JVal)) : Except String FrameRef := do
  let fobj ← asObj (← getItem data "frame")
  let fid ← asStr (← getItem fobj "frame_id")
  let ver ← asOptStr ((jget fobj "version").getD .jnull)
  return { frame_id := fid, version := ver }

/-- `from_dict`, time block. -/
def fromDictTime (data : List (String × JVal)) : Except String TimeWindow := do
  let tobj ← asObj (← getItem data "time")
  let kind ← parseTimeKind (← getItem tobj "kind")
  let ao ← asOptStr ((jget tobj "as_of").getD .jnull)
  let st ← asOptStr ((jget tobj "start").getD .jnull)
  let en ← asOptStr ((jget tobj "end").getD .jnull)
  return { kind := kind, as_of := ao, start := st, end_ := en }

/-- `from_dict`, pattern block (`data.get("pattern", {})`). -/
def fromDictPattern (data : List (String × JVal)) : Except String Pattern := do
  let pobj ← asObj ((jget data "pattern").getD (.jobj []))
  let m ← asOptStr ((jget pobj "match").getD .jnull)
  let warr ← asArr ((jget pobj "where").getD (.jarr []))
  let preds ← parsePredList warr
  return { match_ := m, where_ := preds }

/-- `from_dict`, grounding block (`data.get("grounding", {})`). -/
def fromDictGrounding (data : List (String × JVal)) :
    Except String GroundingSpec := do
  let gobj ← asObj ((jget data "grounding").getD (.jobj []))
  let tr ← asBool ((jget gobj "trace").getD (.jbool false))
  let md ← asInt ((jget gobj "max_depth").getD (.jnum 0))
  let garr ← asArr ((jget gobj "grounded_by").getD (.jarr []))
  let preds ← parsePredList garr
  return { trace := tr, max_depth := md, grounded_by := preds }

/-- `from_dict`, absence block (`if data.get("absence"):` — Python
truthiness of the serialized value). -/
def fromDictAbsence (data : List (String × JVal)) :
    Except String (Option AbsenceSpec) :=
  if jTruthy ((jget data "absence").getD .jnull) then do
    let aobj ← asObj (← getItem data "absence")
    let eobj ← asObj (← getItem aobj "expectation")
    let eid ← asStr (← getItem eobj "expectation_id")
    let ever ← asOptStr ((jget eobj "version").getD .jnull)
    let scope ← asOptObj ((jget aobj "scope").getD .jnull)
    let dh ← asOptInt ((jget aobj "deadline_hours").getD .jnull)
    return some { expectation := { expectation_id := eid, version := ever },
                  scope := scope, deadline_hours := dh }
  else return none

/-- `from_dict`, returns block (`data.get("returns", {})`;
`if returns_data.get("selection_rule"):` is truthiness of the value). -/
def fromDictReturns (data : List (String × JVal)) :
    Except String ReturnSpec := do
  let robj ← asObj ((jget data "returns").getD (.jobj []))
  let sel ←
    (if jTruthy ((jget robj "selection_rule").getD .jnull) then do
      let sobj ← asObj (← getItem robj "selection_rule")
      let rid ← asStr (← getItem sobj "rule_id")
      let params ← asObj ((jget sobj "params").getD (.jobj []))
      pure (some ({ rule_id := rid, params := params } : SelectionRule))
    else pure none)
  let ic ← asBool ((jget robj "include_context").getD (.jbool true))
  let ifr ← asBool ((jget robj "include_frame").getD (.jbool true))
  let ivn ← asBool ((jget robj "include_visibility_notes").getD (.jbool true))
  let icf ← asBool ((jget robj "include_conflicts").getD (.jbool true))
  let cp ← parseConflictPolicy
    ((jget robj "conflict_policy").getD (.jstr "EXPOSE_ALL"))
  return { include_context := ic, include_frame := ifr,
           include_visibility_notes := ivn, include_conflicts := icf,
           conflict_policy := cp, selection_rule := sel }

/-- `from_dict` (src/eoql/ir/serialize.py): reconstruct an `EOQLQuery`
from its JSON document; any missing required field or invalid enum
literal is a ValueError, modelled as `Except.error`. -/
def from_dict (data : List (String × JVal)) : Except String EOQLQuery := do
  let frame ← fromDictFrame data
  let time ← fromDictTime data
  let pattern ← fromDictPattern data
  let grounding ← fromDictGrounding data
  let absence ← fromDictAbsence data
  let returns ← fromDictReturns data
  let target ← parseTarget ((jget data "target").getD .jnull)
  let mode ← parseMode ((jget data "mode").getD .jnull)
  let vis ← parseVisibility ((jget data "visibility").getD .jnull)
  return { target := target, mode := mode, visibility := vis,
           frame := frame, time := time, pattern := pattern,
           grounding := grounding, absence := absence, returns := returns }

theorem parsePredicate_roundtrip (p : Predicate) :
    parsePredicate (predToDict p) = Except.ok p := by
  simp [parsePredicate, predToDict, asObj, asStr, getItem, jget, exbind_ok,
    exmap_ok]

theorem parsePredList_roundtrip (l : List Predicate) :
    parsePredList (l.map predToDict) = Except.ok l := by
  induction l with
  | nil => rfl
  | cons p t ih =>
    simp [parsePredList, parsePredicate_roundtrip, ih, exbind_ok]

theorem asOptStr_roundtrip (v : Option String) :
    asOptStr (optStrJ v) = Except.ok v := by
  cases v <;> rfl

theorem parseTarget_roundtrip (t : Target) :
    parseTarget (.jstr t.value) = Except.ok t := by
  cases t <;> rfl

theorem parseMode_roundtrip (m : Mode) :
    parseMode (.jstr m.value) = Except.ok m := by
  cases m <;> rfl

theorem parseVisibility_roundtrip (v : Visibility) :
    parseVisibility (.jstr v.value) = Except.ok v := by
  cases v <;> rfl

theorem parseTimeKind_roundtrip (k : TimeKind) :
    parseTimeKind (.jstr k.value) = Except.ok k := by
  cases k <;> rfl

theorem parseConflictPolicy_roundtrip (c : ConflictPolicy) :
    parseConflictPolicy (.jstr c.value) = Except.ok c := by
  cases c <;> rfl

theorem fromDictFrame_roundtrip (q : EOQLQuery) :
    fromDictFrame (to_dict q) = Except.ok q.frame := by
  simp [fromDictFrame, to_dict, frameToDict, getItem, jget, asObj, asStr,
    asOptStr_roundtrip, exbind_ok, exmap_ok]

theorem fromDictTime_roundtrip (q : EOQLQuery) :
    fromDictTime (to_dict q) = Except.ok q.time := by
  simp [fromDictTime, to_dict, timeToDict, getItem, jget, asObj,
    parseTimeKind_roundtrip, asOptStr_roundtrip, exbind_ok, exmap_ok]

theorem fromDictPattern_roundtrip (q : EOQLQuery) :
    fromDictPattern (to_dict q) = Except.ok q.pattern := by
  simp [fromDictPattern, to_dict, patternToDict, getItem, jget, asObj,
    asArr, asOptStr_roundtrip, parsePredList_roundtrip, exbind_ok, exmap_ok]

theorem fromDictGrounding_roundtrip (q : EOQLQuery) :
    fromDictGrounding (to_dict q) = Except.ok q.grounding := by
  simp [fromDictGrounding, to_dict, groundingToDict, getItem, jget, asObj,
    asArr, asBool, asInt, parsePredList_roundtrip, exbind_ok, exmap_ok]

theorem fromDictAbsence_roundtrip (q : EOQLQuery) :
    fromDictAbsence (to_dict q) = Except.ok q.absence := by
  rcases ha : q.absence with _ | a
  · simp [fromDictAbsence, to_dict, absenceToDict, ha, jget, jTruthy, expure]
  · obtain ⟨⟨eid, ever⟩, asc, adh⟩ := a
    have htr : jTruthy ((jget (to_dict q) "absence").getD .jnull) = true := by
      simp [to_dict, jget, ha, absenceToDict, jTruthy]
    rw [fromDictAbsence, if_pos htr]
    rcases asc with _ | sc <;> rcases adh with _ | n <;>
      simp [to_dict, absenceToDict, ha, getItem, jget, asObj,
        asStr, asOptObj, asOptInt, asOptStr_roundtrip, expectationToDict,
        exbind_ok, exmap_ok, expure]

theorem fromDictReturns_roundtrip (q : EOQLQuery) :
    fromDictReturns (to_dict q) = Except.ok q.returns := by
  rcases hr : q.returns with ⟨ic, ifr, ivn, icf, cp, sr⟩
  rcases sr with _ | ⟨rid, params⟩ <;>
    simp [fromDictReturns, to_dict, returnsToDict, hr, selectionToDict,
      getItem, jget, asObj, asStr, asBool, jTruthy,
      parseConflictPolicy_roundtrip, exbind_ok, exmap_ok, expure]

/-- C5: deserialization inverts serialization: for every `EOQLQuery`
(nested predicates, grounding, absence, selection rule and all),
`from_dict (to_dict q) = ok q`, with all enum fields serialized as their
string literal values.  (`to_json`/`from_json` are `json.dumps`/`loads`
composed with these; the document is modelled at the JSON-value
level.) -/
theorem C5_serialization_roundtrip (q : EOQLQuery) :
    from_dict (to_dict q) = Except.ok q := by
  simp [from_dict, fromDictFrame_roundtrip, fromDictTime_roundtrip,
    fromDictPattern_roundtrip, fromDictGrounding_roundtrip,
    fromDictAbsence_roundtrip, fromDictReturns_roundtrip, exbind_ok, exmap_ok]
  simp [to_dict, jget, parseTarget_roundtrip, parseMode_roundtrip,
    parseVisibility_roundtrip, exbind_ok, exmap_ok]

-- ---------- Expectation registry (src/eoql/registry/expectations.py) ----------

/-- Python `datetime.datetime` (naive), modelled field-wise in the
proleptic Gregorian calendar. -/
structure PyDateTime where
  year : Int
  month : Int
  day : Int
  hour : Int := 0
  minute : Int := 0
  second : Int := 0
  microsecond : Int := 0
  deriving DecidableEq, Repr

/-- Days since 1970-01-01 of a proleptic-Gregorian civil date (Howard
Hinnant's `days_from_civil`; `ediv` is floor division for the positive
divisors used here, matching the published algorithm). -/
def days_from_civil (y m d : Int) : Int :=
  let y' := if m ≤ 2 then y - 1 else y
  let era := y'.ediv 400
  let yoe := y' - era * 400
  let mp := (m + 9).emod 12
  let doy := (153 * mp + 2).ediv 5 + d - 1
  let doe := yoe * 365 + yoe.ediv 4 - yoe.ediv 100 + doy
  era * 146097 + doe - 719468

/-- Civil date of a days-since-1970-01-01 count (Hinnant's
`civil_from_days`). -/
def civil_from_days (z0 : Int) : Int × Int × Int :=
  let z := z0 + 719468
  let era := z.ediv 146097
  let doe := z - era * 146097
  let yoe := (doe - doe.ediv 1460 + doe.ediv 36524 - doe.ediv 146096).ediv 365
  let y := yoe + era * 400
  let doy := doe - (365 * yoe + yoe.ediv 4 - yoe.ediv 100)
  let mp := (5 * doy + 2).ediv 153
  let d := doy - (153 * mp + 2).ediv 5 + 1
  let m := mp + (if mp < 10 then 3 else -9)
  (if m ≤ 2 then y + 1 else y, m, d)

/-- Python `datetime.toordinal()` (ordinal 1 = 0001-01-01). -/
def PyDateTime.toOrdinal (dt : PyDateTime) : Int :=
  days_from_civil dt.year dt.month dt.day + 719163

/-- Python `datetime.weekday()`: Monday = 0 ... Sunday = 6. -/
def PyDateTime.weekday (dt : PyDateTime) : Int :=
  (dt.toOrdinal - 1).emod 7

/-- `dt.replace(hour=0, minute=0, second=0, microsecond=0)`. -/
def PyDateTime.atMidnight (dt : PyDateTime) : PyDateTime :=
  { dt with hour := 0, minute := 0, second := 0, microsecond := 0 }

/-- `dt + timedelta(days=n)`: shifts the date, keeps the time of day. -/
def PyDateTime.addDays (dt : PyDateTime) (n : Int) : PyDateTime :=
  let c := civil_from_days (days_from_civil dt.year dt.month dt.day + n)
  { dt with year := c.1, month := c.2.1, day := c.2.2 }

/-- `dt - timedelta(hours=h)`: full timestamp arithmetic in
microseconds. -/
def PyDateTime.subHours (dt : PyDateTime) (h : Int) : PyDateTime :=
  let todUs := ((dt.hour * 60 + dt.minute) * 60 + dt.second) * 1000000
    + dt.microsecond
  let total := days_from_civil dt.year dt.month dt.day * 86400000000
    + todUs - h * 3600000000
  let dayo := total.ediv 86400000000
  let rem := total.emod 86400000000
  let c := civil_from_days dayo
  { year := c.1, month := c.2.1, day := c.2.2
    hour := rem.ediv 3600000000
    minute := (rem.emod 3600000000).ediv 60000000
    second := (rem.emod 60000000).ediv 1000000
    microsecond := rem.emod 1000000 }

/-- `dt + timedelta(hours=h)`. -/
def PyDateTime.addHours (dt : PyDateTime) (h : Int) : PyDateTime :=
  dt.subHours (-h)

/-- `ExpectationFrequency`: how often the expected event should
occur. -/
inductive ExpectationFrequency where
  | ONCE | DAILY | WEEKLY | MONTHLY | RECURRING | CONTINUOUS
  deriving DecidableEq, Repr

/-- `ExpectationRule`: the executable rule that defines an
expectation. -/
structure ExpectationRule where
  entity_filter : List (String × JVal) := []
  claim_type : Option String := none
  frequency : ExpectationFrequency := ExpectationFrequency.ONCE
  deadline_hours : Option Int := none
  scope : List (String × JVal) := []
  recurrence_pattern : Option String := none
  deriving DecidableEq, Repr

/-- `ExpectationRule.get_deadline` (a `timedelta(hours=h)`, modelled as
its hour count). -/
def ExpectationRule.get_deadline (r : ExpectationRule) : Option Int :=
  r.deadline_hours

/-- `ExpectationDefinition`: a fully resolved expectation
definition. -/
structure ExpectationDefinition where
  expectation_id : String
  version : String
  name : String
  description : Option String := none
  rule : ExpectationRule := {}
  active_from : Option PyDateTime := none
  active_until : Option PyDateTime := none
  frame_id : Option String := none
  frame_version : Option String := none
  created_at : Option PyDateTime := none
  created_by : Option String := none
  grounding_ref : Option String := none
  deriving DecidableEq, Repr

/-- `ExpectationRegistry.compute_absence_window`: the absence-detection
time window dictated by the expectation's frequency.  Python's
`expectation.active_from or reference_time` falls back only on `None`
(datetime objects are always truthy), but `if deadline:` is timedelta
truthiness: both `None` and `timedelta(0)` (a present
`deadline_hours = 0`) are falsy, so a zero-hour deadline takes the
no-deadline branch. -/
def computeAbsenceWindow (expectation : ExpectationDefinition)
    (reference_time : PyDateTime) : PyDateTime × PyDateTime :=
  let rule := expectation.rule
  let deadline := rule.get_deadline
  if rule.frequency = ExpectationFrequency.ONCE then
    let start := expectation.active_from.getD reference_time
    match deadline with
    | some h =>
      if h ≠ 0 then (start, start.addHours h) else (start, reference_time)
    | none => (start, reference_time)
  else if rule.frequency = ExpectationFrequency.DAILY then
    let start := reference_time.atMidnight
    (start, start.addDays 1)
  else if rule.frequency = ExpectationFrequency.WEEKLY then
    let days_since_monday := reference_time.weekday
    let start := (reference_time.addDays (-days_since_monday)).atMidnight
    (start, start.addDays 7)
  else if rule.frequency = ExpectationFrequency.MONTHLY then
    let start := { reference_time with
      day := 1
      hour := 0
      minute := 0
      second := 0
      microsecond := 0 }
    if reference_time.month = 12 then
      (start, { start with year := start.year + 1, month := 1 })
    else
      (start, { start with month := start.month + 1 })
  else
    match deadline with
    | some h =>
      if h ≠ 0 then (reference_time.subHours h, reference_time)
      else (reference_time.subHours 24, reference_time)
    | none => (reference_time.subHours 24, reference_time)

/-- The expectation `EXP_daily_check` of the spec §8 scenario. -/
def expDailyCheck : ExpectationDefinition :=
  { expectation_id := "EXP_daily_check", version := "1.0",
    name := "Daily check",
    rule := { claim_type := some "daily_check",
              frequency := ExpectationFrequency.DAILY } }

/-- A WEEKLY and a MONTHLY variant for the concrete window checks. -/
def expWeeklyCheck : ExpectationDefinition :=
  { expDailyCheck with
    rule := { expDailyCheck.rule with
              frequency := ExpectationFrequency.WEEKLY } }

/-- MONTHLY variant for the December-to-January rollover check. -/
def expMonthlyCheck : ExpectationDefinition :=
  { expDailyCheck with
    rule := { expDailyCheck.rule with
              frequency := ExpectationFrequency.MONTHLY } }

/-- 2025-12-27T14:30:00, the reference time of the spec §8 scenario
(a Saturday in December). -/
def refDec27 : PyDateTime := { year := 2025, month := 12, day := 27,
                               hour := 14, minute := 30 }

/-- A ONCE expectation with an explicit `active_from`
(2025-12-01T00:00) and a present but zero-hour deadline. -/
def expOnceZero : ExpectationDefinition :=
  { expDailyCheck with
    active_from := some { year := 2025, month := 12, day := 1 }
    rule := { expDailyCheck.rule with
              frequency := ExpectationFrequency.ONCE
              deadline_hours := some 0 } }

/-- C6 counterexample to the claim as stated: `get_deadline` at
`deadline_hours = 0` returns `timedelta(0)`, which is falsy in Python,
so `compute_absence_window` on a ONCE expectation takes the no-deadline
branch and returns (active_from, reference_time) — not the claim's
(active_from, active_from + deadline) = (active_from, active_from). -/
theorem C6_claim_counterexample :
    expOnceZero.rule.frequency = ExpectationFrequency.ONCE ∧
    expOnceZero.rule.deadline_hours = some 0 ∧
    expOnceZero.active_from
      = some { year := 2025, month := 12, day := 1 } ∧
    computeAbsenceWindow expOnceZero refDec27
      = ({ year := 2025, month := 12, day := 1 }, refDec27) ∧
    computeAbsenceWindow expOnceZero refDec27
      ≠ ({ year := 2025, month := 12, day := 1 },
         PyDateTime.addHours { year := 2025, month := 12, day := 1 } 0) := by
  decide

/-- C6 (amended): `compute_absence_window` returns the window the
frequency dictates, with `if deadline:` read as Python timedelta
truthiness (`None` and `timedelta(0)` both falsy).  ONCE with
`active_from` and a non-zero deadline gives
[active_from, active_from + deadline], and with no deadline or a
zero-hour one gives [active_from, reference]; DAILY gives [midnight of
the reference day, +1 day] — concretely, DAILY at 2025-12-27T14:30:00
yields [2025-12-27T00:00:00, 2025-12-28T00:00:00); WEEKLY gives
[Monday 00:00 of the reference week, +7 days] — concretely
[2025-12-22T00:00 (a Monday), 2025-12-29T00:00); MONTHLY gives [the 1st
of the reference month, the 1st of the next month] with the
December-to-January rollover — concretely [2025-12-01, 2026-01-01); any
other frequency (RECURRING/CONTINUOUS) with a non-zero deadline gives
[reference − deadline, reference], and with no deadline or a zero-hour
one gives [reference − 24h, reference]. -/
theorem C6_absence_windows :
    (∀ (e : ExpectationDefinition) (ref af : PyDateTime) (h : Int),
      e.rule.frequency = ExpectationFrequency.ONCE →
      e.active_from = some af → e.rule.deadline_hours = some h → h ≠ 0 →
      computeAbsenceWindow e ref = (af, af.addHours h)) ∧
    (∀ (e : ExpectationDefinition) (ref af : PyDateTime),
      e.rule.frequency = ExpectationFrequency.ONCE →
      e.active_from = some af →
      (e.rule.deadline_hours = none ∨ e.rule.deadline_hours = some 0) →
      computeAbsenceWindow e ref = (af, ref)) ∧
    (∀ (e : ExpectationDefinition) (ref : PyDateTime),
      e.rule.frequency = ExpectationFrequency.DAILY →
      computeAbsenceWindow e ref =
        (ref.atMidnight, ref.atMidnight.addDays 1)) ∧
    computeAbsenceWindow expDailyCheck refDec27 =
      ({ year := 2025, month := 12, day := 27 },
       { year := 2025, month := 12, day := 28 }) ∧
    (∀ (e : ExpectationDefinition) (ref : PyDateTime),
      e.rule.frequency = ExpectationFrequency.WEEKLY →
      computeAbsenceWindow e ref =
        ((ref.addDays (-ref.weekday)).atMidnight,
         (ref.addDays (-ref.weekday)).atMidnight.addDays 7)) ∧
    (computeAbsenceWindow expWeeklyCheck refDec27 =
      ({ year := 2025, month := 12, day := 22 },
       { year := 2025, month := 12, day := 29 }) ∧
     ({ year := 2025, month := 12, day := 22 } : PyDateTime).weekday = 0) ∧
    (∀ (e : ExpectationDefinition) (ref : PyDateTime),
      e.rule.frequency = ExpectationFrequency.MONTHLY →
      computeAbsenceWindow e ref =
        ({ ref with
            day := 1
            hour := 0
            minute := 0
            second := 0
            microsecond := 0 },
         if ref.month = 12 then
           { ref with
              year := ref.year + 1
              month := 1
              day := 1
              hour := 0
              minute := 0
              second := 0
              microsecond := 0 }
         else
           { ref with
              month := ref.month + 1
              day := 1
              hour := 0
              minute := 0
              second := 0
              microsecond := 0 })) ∧
    computeAbsenceWindow expMonthlyCheck refDec27 =
      ({ year := 2025, month := 12, day := 1 },
       { year := 2026, month := 1, day := 1 }) ∧
    (∀ (e : ExpectationDefinition) (ref : PyDateTime) (h : Int),
      (e.rule.frequency = ExpectationFrequency.RECURRING ∨
       e.rule.frequency = ExpectationFrequency.CONTINUOUS) →
      e.rule.deadline_hours = some h → h ≠ 0 →
      computeAbsenceWindow e ref = (ref.subHours h, ref)) ∧
    (∀ (e : ExpectationDefinition) (ref : PyDateTime),
      (e.rule.frequency = ExpectationFrequency.RECURRING ∨
       e.rule.frequency = ExpectationFrequency.CONTINUOUS) →
      (e.rule.deadline_hours = none ∨ e.rule.deadline_hours = some 0) →
      computeAbsenceWindow e ref = (ref.subHours 24, ref)) := by
  refine ⟨?_, ?_, ?_, by decide, ?_, by decide, ?_, by decide, ?_, ?_⟩
  · intro e ref af h hf haf hd hne
    simp [computeAbsenceWindow, hf, haf, hd, ExpectationRule.get_deadline,
      hne]
  · intro e ref af hf haf hd
    rcases hd with hd | hd <;>
      simp [computeAbsenceWindow, hf, haf, hd, ExpectationRule.get_deadline]
  · intro e ref hf
    simp [computeAbsenceWindow, hf]
  · intro e ref hf
    simp [computeAbsenceWindow, hf]
  · intro e ref hf
    by_cases hm : ref.month = 12 <;>
      simp [computeAbsenceWindow, hf, hm]
  · intro e ref h hor hd hne
    rcases hor with hf | hf <;>
      simp [computeAbsenceWindow, hf, ExpectationRule.get_deadline, hd, hne]
  · intro e ref hor hd
    rcases hor with hf | hf <;> rcases hd with hd | hd <;>
      simp [computeAbsenceWindow, hf, ExpectationRule.get_deadline, hd]

/-- Witness for C6's quantified conjuncts at concrete inputs. -/
theorem C6_absence_windows_witness :
    computeAbsenceWindow expDailyCheck refDec27 =
      (refDec27.atMidnight, refDec27.atMidnight.addDays 1) :=
  C6_absence_windows.2.2.1 expDailyCheck refDec27 rfl

-- ---------- Frame registry (src/eoql/registry/frames.py) ----------

/-- Python dict lookup `d.get(k)` for any value type (insertion-ordered
association list with unique keys). -/
def pyGet {α : Type} : List (String × α) → String → Option α
  | [], _ => none
  | (k', v) :: t, k => if k' = k then some v else pyGet t k

/-- Python dict assignment `d[k] = v`: update in place if the key
exists, else append. -/
def pySet {α : Type} : List (String × α) → String → α → List (String × α)
  | [], k, v => [(k, v)]
  | (k', v') :: t, k, v =>
    if k' = k then (k', v) :: t else (k', v') :: pySet t k v

/-- Python `s.startswith(pfx)` (code-point level). -/
def pyStartsWith (s pfx : String) : Bool := pfx.data.isPrefixOf s.data

/-- Python string `≤` (code-point lexicographic) on char lists. -/
def listLe : List Char → List Char → Bool
  | [], _ => true
  | _ :: _, [] => false
  | a :: as', b :: bs' =>
    if a.toNat < b.toNat then true
    else if b.toNat < a.toNat then false
    else listLe as' bs'

/-- Python string `≤` (code-point lexicographic). -/
def pyStrLe (a b : String) : Bool := listLe a.data b.data

theorem listLe_refl : ∀ l : List Char, listLe l l = true
  | [] => rfl
  | a :: t => by simp [listLe, listLe_refl t]

theorem listLe_trans :
    ∀ a b c : List Char, listLe a b = true → listLe b c = true →
      listLe a c = true
  | [], _, _ => fun _ _ => rfl
  | _ :: _, [], _ => fun hab _ => by simp [listLe] at hab
  | _ :: _, _ :: _, [] => fun _ hbc => by simp [listLe] at hbc
  | a :: as', b :: bs', c :: cs' => fun hab hbc => by
    simp only [listLe] at hab hbc ⊢
    split_ifs at hab hbc ⊢ <;> first
      | rfl
      | (exfalso; omega)
      | (simp at hab)
      | (simp at hbc)
      | exact listLe_trans as' bs' cs' hab hbc
      | omega

theorem listLe_total :
    ∀ a b : List Char, listLe a b = true ∨ listLe b a = true
  | [], _ => Or.inl rfl
  | _ :: _, [] => Or.inr rfl
  | a :: as', b :: bs' => by
    simp only [listLe]
    split_ifs <;> first
      | exact Or.inl rfl
      | exact Or.inr rfl
      | omega
      | exact listLe_total as' bs'

/-- Python `sorted(keys, reverse=True)`: descending code-point order
(dict keys are distinct, so stability is irrelevant). -/
def sortedKeysDesc (keys : List String) : List String :=
  List.insertionSort (fun a b => pyStrLe b a = true) keys

/-- `FrameDefinition`: a fully resolved frame definition. -/
structure FrameDefinition where
  frame_id : String
  version : String
  name : String
  description : Option String := none
  config : List (String × JVal) := []
  created_at : Option PyDateTime := none
  created_by : Option String := none
  supersedes : Option String := none
  grounding_ref : Option String := none
  deriving DecidableEq, Repr

/-- `FrameNotFoundError`: raised when a referenced frame cannot be
resolved. -/
structure FrameNotFoundError where
  frame_ref : FrameRef
  deriving DecidableEq, Repr

/-- The `InMemoryFrameStore._frames` dict-of-dicts. -/
abbrev FrameStoreState := List (String × List (String × FrameDefinition))

/-- `InMemoryFrameStore.put`. -/
def storePut (st : FrameStoreState) (frame : FrameDefinition) :
    FrameStoreState :=
  pySet st frame.frame_id
    (pySet ((pyGet st frame.frame_id).getD []) frame.version frame)

/-- `InMemoryFrameStore.get`: explicit version is exact lookup;
`None`/"latest" returns the "latest"-keyed entry if present, else the
entry under the highest (descending-sorted first) version key. -/
def storeGet (st : FrameStoreState) (frame_id : String)
    (version : Option String) : Option FrameDefinition :=
  match pyGet st frame_id with
  | none => none
  | some versions =>
    if version = none ∨ version = some "latest" then
      match pyGet versions "latest" with
      | some f => some f
      | none =>
        match sortedKeysDesc (versions.map Prod.fst) with
        | [] => none
        | v :: _ => pyGet versions v
    else
      match version with
      | some v => pyGet versions v
      | none => none

/-- The default frame inserted by `InMemoryFrameStore.__init__`
(`datetime.now()` is passed in as `now`). -/
def mkDefaultFrame (now : PyDateTime) : FrameDefinition :=
  { frame_id := "F_default", version := "latest", name := "Default Frame",
    description := some "System default interpretation frame",
    config := [("thresholds", .jobj [("certainty_minimum", .jnum 0)]),
               ("definitions", .jobj []),
               ("exclusions", .jarr []),
               ("synthesis_preferences", .jobj [])],
    created_at := some now }

/-- `FrameRegistry`: store plus `(frame_id, version)`-keyed resolution
cache. -/
structure FrameRegistry where
  store : FrameStoreState
  cache : List (String × FrameDefinition)
  deriving DecidableEq, Repr

/-- A freshly constructed registry over a fresh in-memory store. -/
def freshFrameRegistry (now : PyDateTime) : FrameRegistry :=
  { store := storePut [] (mkDefaultFrame now), cache := [] }

/-- The cache key `f"{ref.frame_id}:{ref.version or 'latest'}"`. -/
def cacheKey (ref : FrameRef) : String :=
  ref.frame_id ++ ":" ++ orLit ref.version "latest"

/-- `FrameRegistry.resolve`: serve from cache, else consult the store
and cache the result; raises `FrameNotFoundError` when the store has no
entry. -/
def FrameRegistry.resolve (reg : FrameRegistry) (ref : FrameRef) :
    Except FrameNotFoundError FrameDefinition × FrameRegistry :=
  let cache_key := cacheKey ref
  match pyGet reg.cache cache_key with
  | some f => (Except.ok f, reg)
  | none =>
    match storeGet reg.store ref.frame_id ref.version with
    | none => (Except.error { frame_ref := ref }, reg)
    | some frame =>
      (Except.ok frame, { reg with cache := pySet reg.cache cache_key frame })

/-- `FrameRegistry.register`: store the definition and delete every
cache entry whose key starts with `f"{frame.frame_id}:"`. -/
def FrameRegistry.register (reg : FrameRegistry) (frame : FrameDefinition) :
    FrameRegistry :=
  { store := storePut reg.store frame
    cache := reg.cache.filter
      (fun kv => !(pyStartsWith kv.1 (frame.frame_id ++ ":"))) }

theorem pyGet_pySet_self {α : Type} (l : List (String × α)) (k : String)
    (v : α) : pyGet (pySet l k v) k = some v := by
  induction l with
  | nil => simp [pySet, pyGet]
  | cons kv t ih =>
    by_cases h : kv.1 = k <;> simp [pySet, pyGet, h, ih]

theorem pyGet_filter_startsWith {α : Type} (l : List (String × α))
    (pfx key : String) (hk : pyStartsWith key pfx = true) :
    pyGet (l.filter fun kv => !(pyStartsWith kv.1 pfx)) key = none := by
  induction l with
  | nil => rfl
  | cons kv t ih =>
    by_cases hs : pyStartsWith kv.1 pfx
    · simp [List.filter_cons, hs, ih]
    · have hne : kv.1 ≠ key := by
        intro he
        rw [he] at hs
        exact hs hk
      simp [List.filter_cons, hs, pyGet, hne, ih]

theorem cacheKey_startsWith (ref : FrameRef) :
    pyStartsWith (cacheKey ref) (ref.frame_id ++ ":") = true := by
  unfold pyStartsWith cacheKey
  rw [String.data_append, String.data_append, String.data_append]
  exact List.isPrefixOf_iff_prefix.mpr (List.prefix_append _ _)

/-- The concrete frames of the cache-collision counterexample: `defA`
lives under id `"a"`, version `"b:latest"`; `defX` under id `"a:b"`,
version `"latest"`.  Both cache under the key `"a:b:latest"`. -/
def defA : FrameDefinition :=
  { frame_id := "a", version := "b:latest", name := "A" }

/-- The frame whose id collides with `defA`'s cache key. -/
def defX : FrameDefinition :=
  { frame_id := "a:b", version := "latest", name := "X" }

/-- Registry with `defA` and `defX` registered and `("a", "b:latest")`
already resolved (cached under `"a:b:latest"`). -/
def regCollision : FrameRegistry :=
  (((freshFrameRegistry { year := 1970, month := 1, day := 1 }).register
    defA).register defX).resolve
      { frame_id := "a", version := some "b:latest" } |>.2

/-- C7 counterexample to the claim as stated: resolving
`("a:b", None)` on `regCollision` is served from the cache entry that
`("a", "b:latest")` created — it returns `defA`, whose `frame_id` is
`"a"`, not the `defX` actually stored for `"a:b"`.  Cache keys built by
string concatenation with `:` collide across distinct references. -/
theorem C7_claim_counterexample :
    (regCollision.resolve { frame_id := "a:b", version := none }).1 =
      Except.ok defA ∧
    defA.frame_id ≠ "a:b" ∧
    storeGet regCollision.store "a:b" none = some defX ∧
    defX ≠ defA := by
  refine ⟨rfl, by decide, rfl, by decide⟩

/-- C7 (amended): on a cache miss, `resolve` returns exactly what the
store holds (explicit version: the `(id, version)` entry or
`FrameNotFoundError`; `None`/"latest": the literal `"latest"` entry if
present, else the highest version key); `register(d)` removes every
cache entry for `d.frame_id`, so the first subsequent resolve of any
reference to `d.frame_id` consults the store, and resolving
`(d.frame_id, d.version)` right after `register(d)` returns `d`.
(When ids or versions contain `:`, distinct references can share a
cache key, so later resolves may be served a wrong-id cached
definition — see the counterexample.) -/
theorem C7_registry_resolution :
    (∀ (reg : FrameRegistry) (ref : FrameRef),
      pyGet reg.cache (cacheKey ref) = none →
      (reg.resolve ref).1 =
        (match storeGet reg.store ref.frame_id ref.version with
         | some f => Except.ok f
         | none => Except.error { frame_ref := ref })) ∧
    (∀ (st : FrameStoreState) (id v : String)
       (versions : List (String × FrameDefinition)),
      pyGet st id = some versions → v ≠ "latest" →
      storeGet st id (some v) = pyGet versions v) ∧
    (∀ (st : FrameStoreState) (id : String)
       (versions : List (String × FrameDefinition)) (f : FrameDefinition),
      pyGet st id = some versions → pyGet versions "latest" = some f →
      storeGet st id none = some f) ∧
    (∀ (st : FrameStoreState) (id : String)
       (versions : List (String × FrameDefinition)),
      pyGet st id = some versions → pyGet versions "latest" = none →
      versions ≠ [] →
      ∃ vmax, vmax ∈ versions.map Prod.fst ∧
        (∀ k ∈ versions.map Prod.fst, pyStrLe k vmax = true) ∧
        storeGet st id none = pyGet versions vmax) ∧
    (∀ (reg : FrameRegistry) (d : FrameDefinition) (ref : FrameRef),
      ref.frame_id = d.frame_id →
      pyGet (reg.register d).cache (cacheKey ref) = none) ∧
    (∀ (reg : FrameRegistry) (d : FrameDefinition),
      ((reg.register d).resolve
        { frame_id := d.frame_id, version := some d.version }).1 =
        Except.ok d) := by
  have hmiss : ∀ (reg : FrameRegistry) (ref : FrameRef),
      pyGet reg.cache (cacheKey ref) = none →
      (reg.resolve ref).1 =
        (match storeGet reg.store ref.frame_id ref.version with
         | some f => Except.ok f
         | none => Except.error { frame_ref := ref }) := by
    intro reg ref h
    simp only [FrameRegistry.resolve, h]
    rcases hsg : storeGet reg.store ref.frame_id ref.version with _ | f <;>
      rfl
  have hinval : ∀ (reg : FrameRegistry) (d : FrameDefinition) (ref : FrameRef),
      ref.frame_id = d.frame_id →
      pyGet (reg.register d).cache (cacheKey ref) = none := by
    intro reg d ref hid
    unfold FrameRegistry.register
    apply pyGet_filter_startsWith
    rw [← hid]
    exact cacheKey_startsWith ref
  refine ⟨hmiss, ?_, ?_, ?_, hinval, ?_⟩
  · intro st id v versions hst hv
    simp only [storeGet, hst]
    have hcond : ¬ ((some v : Option String) = none ∨
        (some v : Option String) = some "latest") := by
      simp [hv]
    rw [if_neg hcond]
  · intro st id versions f hst hlat
    simp only [storeGet, hst]
    simp [hlat]
  · intro st id versions hst hlat hne
    have hperm : (sortedKeysDesc (versions.map Prod.fst)).Perm
        (versions.map Prod.fst) :=
      List.perm_insertionSort _ _
    have hsorted : List.Pairwise (fun a b => pyStrLe b a = true)
        (sortedKeysDesc (versions.map Prod.fst)) := by
      unfold sortedKeysDesc
      haveI : IsTotal String (fun a b => pyStrLe b a = true) :=
        ⟨fun a b => listLe_total b.data a.data⟩
      haveI : IsTrans String (fun a b => pyStrLe b a = true) :=
        ⟨fun a b c hab hbc => listLe_trans c.data b.data a.data hbc hab⟩
      exact List.sorted_insertionSort _ _
    rcases hs : sortedKeysDesc (versions.map Prod.fst) with _ | ⟨vmax, rest⟩
    · exfalso
      have hlen := hperm.length_eq
      rw [hs] at hlen
      have hmapnil : versions.map Prod.fst = [] := by
        cases hv : versions.map Prod.fst with
        | nil => rfl
        | cons x t =>
          rw [hv] at hlen
          simp at hlen
      exact hne (by simpa using hmapnil)
    · refine ⟨vmax, ?_, ?_, ?_⟩
      · have : vmax ∈ sortedKeysDesc (versions.map Prod.fst) := by
          rw [hs]; exact List.mem_cons_self _ _
        exact hperm.mem_iff.mp this
      · intro k hk
        have hk' : k ∈ sortedKeysDesc (versions.map Prod.fst) :=
          hperm.mem_iff.mpr hk
        rw [hs] at hk' hsorted
        rcases List.mem_cons.mp hk' with rfl | hk''
        · exact listLe_refl k.data
        · exact (List.pairwise_cons.mp hsorted).1 k hk''
      · simp only [storeGet, hst]
        simp [hlat, hs]
  · intro reg d
    have hkey : pyGet (reg.register d).cache
        (cacheKey { frame_id := d.frame_id, version := some d.version }) =
          none :=
      hinval reg d _ rfl
    rw [hmiss _ _ hkey]
    by_cases hv : d.version = "latest"
    · simp [FrameRegistry.register, storeGet, storePut, pyGet_pySet_self, hv]
    · simp [FrameRegistry.register, storeGet, storePut, pyGet_pySet_self, hv]

/-- Witness for C7 at concrete inputs: a cache-miss resolve on the
fresh registry returns the stored default frame, and register-then-
resolve returns the registered definition. -/
theorem C7_registry_resolution_witness :
    pyGet (freshFrameRegistry { year := 1970, month := 1, day := 1 }).cache
      (cacheKey { frame_id := "F_default", version := some "latest" }) =
        none ∧
    ((freshFrameRegistry { year := 1970, month := 1, day := 1 }).resolve
      { frame_id := "F_default", version := some "latest" }).1 =
        Except.ok (mkDefaultFrame { year := 1970, month := 1, day := 1 }) ∧
    (((freshFrameRegistry { year := 1970, month := 1, day := 1 }).register
      defA).resolve { frame_id := "a", version := some "b:latest" }).1 =
        Except.ok defA := by
  refine ⟨rfl, ?_, ?_⟩
  · have h := C7_registry_resolution.1
      (freshFrameRegistry { year := 1970, month := 1, day := 1 })
      { frame_id := "F_default", version := some "latest" } rfl
    rw [h]
    rfl
  · exact C7_registry_resolution.2.2.2.2.2
      (freshFrameRegistry { year := 1970, month := 1, day := 1 }) defA

-- ---------- Executor (src/eoql/executor/postgres.py) ----------

/-- `ExecutionMode`: how to execute the query. -/
inductive ExecutionMode where
  | STRICT | ANNOTATED | EXPLAIN
  deriving DecidableEq, Repr

/-- `EpistemicMetadata`: attached to every result row.  Fields populated
from raw rows or the context dict hold arbitrary database values
(`JVal`); `jnull` models Python `None`. -/
structure EpistemicMetadata where
  frame_id : JVal
  frame_version : JVal
  time_projection : JVal
  time_value : JVal
  visibility : JVal
  mode : JVal
  has_conflicts : Bool := false
  conflict_ids : List JVal := []
  conflict_policy : JVal := .jstr "EXPOSE_ALL"
  grounding_depth : Int := 0
  grounding_refs : List JVal := []
  certainty : JVal := .jnull
  certainty_method : JVal := .jnull
  deriving DecidableEq, Repr

/-- A raw database row (a dict of column values). -/
abbrev RawRow := List (String × JVal)

/-- `ResultRow`: payload dict plus mandatory epistemic metadata and
row-level provenance. -/
structure ResultRow where
  data : RawRow
  epistemic : EpistemicMetadata
  assertion_id : JVal := .jnull
  source_id : JVal := .jnull
  deriving DecidableEq, Repr

/-- `ConflictCluster`: a group of conflicting results.  `uuid.uuid4()`
cluster ids are modelled by the cluster's creation index (an opaque
fresh identifier; no claim depends on its value). -/
structure ConflictCluster where
  cluster_id : Nat
  conflict_type : String
  rows : List ResultRow
  resolution_status : String := "unresolved"
  deriving DecidableEq, Repr

/-- `QueryResult`: the complete result of an EOQL query.
`executed_at` is the captured start time; `execution_time_ms` (a float
of wall-clock duration) and the `absences` list (never populated by
`execute`) are out of the modelled claims and omitted. -/
structure QueryResult where
  rows : List ResultRow := []
  conflicts : List ConflictCluster := []
  query_id : Nat := 0
  executed_at : Option PyDateTime := none
  executed_sql : Option String := none
  frame_id : JVal := .jnull
  frame_version : JVal := .jnull
  time_projection : JVal := .jnull
  conflict_policy : JVal := .jnull
  notes : List String := []
  deriving DecidableEq, Repr

/-- `ExecutionError`: raised when query execution fails; wraps the
attempted SQL and the original backing-store exception (modelled by its
message). -/
structure ExecutionError where
  message : String
  sql : Option String := none
  original_error : Option String := none
  deriving DecidableEq, Repr

/-- The backing store's response to one SQL execution: result rows, or
a raised exception. -/
inductive DBResponse where
  | rows : List RawRow → DBResponse
  | failure : String → DBResponse
  deriving DecidableEq, Repr

/-- An event on the database connection (used to observe whether
`execute` performs rollbacks or retries). -/
inductive ConnEvent where
  | execSql : String → ConnEvent
  | commit : ConnEvent
  | rollback : ConnEvent
  deriving DecidableEq, Repr

/-- `PostgresExecutor` instance state: whether `self._connection` is
set, the connection's autocommit flag, and `self._in_transaction`. -/
structure PgExecutor where
  connection : Bool
  autocommit : Bool := true
  in_transaction : Bool := false
  deriving DecidableEq, Repr

/-- `PostgresExecutor._execute_sql`: no connection returns `[]`
without touching the store; otherwise one execution against the store
(the store's behaviour is the `db` parameter). -/
def pgExecuteSql (ex : PgExecutor) (db : DBResponse) (sql : String) :
    Except String (List RawRow) × List ConnEvent :=
  if ex.connection = false then (Except.ok [], [])
  else match db with
    | .rows rs => (Except.ok rs, [ConnEvent.execSql sql])
    | .failure msg => (Except.error msg, [ConnEvent.execSql sql])

/-- `raw.pop(k, default)`: the popped value and the dict without the
key. -/
def rowPop (row : RawRow) (k : String) (default : JVal) : JVal × RawRow :=
  ((jget row k).getD default, row.filter (fun kv => kv.1 != k))

/-- The per-row body of `PostgresExecutor._map_results`: move the
epistemic and provenance columns out of the payload into the metadata
(row-level values take precedence over the context template; UUID
values pass through as-is). -/
def mapResultRow (template : EpistemicMetadata) (raw : RawRow) : ResultRow :=
  let p1 := rowPop raw "frame_id" template.frame_id
  let p2 := rowPop p1.2 "frame_version" template.frame_version
  let p3 := rowPop p2.2 "visibility_scope" template.visibility
  let p4 := rowPop p3.2 "assertion_mode" template.mode
  let p5 := rowPop p4.2 "certainty" .jnull
  let p6 := rowPop p5.2 "method" .jnull
  let p7 := rowPop p6.2 "assertion_id" .jnull
  let p8 := rowPop p7.2 "source_id" .jnull
  { data := p8.2
    epistemic :=
      { frame_id := p1.1
        frame_version := p2.1
        time_projection := template.time_projection
        time_value := template.time_value
        visibility := p3.1
        mode := p4.1
        conflict_policy := template.conflict_policy
        certainty := p5.1
        certainty_method := p6.1 }
    assertion_id := p7.1
    source_id := p8.1 }

/-- `PostgresExecutor._map_results`. -/
def mapResults (raws : List RawRow) (template : EpistemicMetadata) :
    List ResultRow :=
  raws.map (mapResultRow template)

/-- `row.data.get("subject_id")`. -/
def subjOf (r : ResultRow) : JVal := (jget r.data "subject_id").getD .jnull

/-- `row.data.get("claim_type", "unknown")`. -/
def ctOf (r : ResultRow) : JVal :=
  (jget r.data "claim_type").getD (.jstr "unknown")

/-- Append a row to its key's group in an insertion-ordered dict of
lists (the `if key not in d: d[key] = []; d[key].append(row)`
pattern). -/
def dictAppend {κ : Type} [DecidableEq κ]
    : List (κ × List ResultRow) → κ → ResultRow → List (κ × List ResultRow)
  | [], k, r => [(k, [r])]
  | (k', rs) :: t, k, r =>
    if k' = k then (k', rs ++ [r]) :: t else (k', rs) :: dictAppend t k r

/-- Lookup a group (empty when the key is absent). -/
def glook {κ : Type} [DecidableEq κ]
    : List (κ × List ResultRow) → κ → List ResultRow
  | [], _ => []
  | (k', rs) :: t, k => if k' = k then rs else glook t k

/-- Group rows under `key`, keeping only rows passing `gate`, in
iteration order (the grouping loops of `_detect_conflicts`). -/
def groupFold (key : ResultRow → JVal) (gate : ResultRow → Bool)
    (rows : List ResultRow) : List (JVal × List ResultRow) :=
  rows.foldl (fun d r => if gate r then dictAppend d (key r) r else d) []

/-- The `by_subject` dict of `_detect_conflicts` (falsy subject ids are
skipped). -/
def bySubject (rows : List ResultRow) : List (JVal × List ResultRow) :=
  groupFold subjOf (fun r => jTruthy (subjOf r)) rows

/-- The `claim_types` dict of `_detect_conflicts`. -/
def byClaimType (srows : List ResultRow) : List (JVal × List ResultRow) :=
  groupFold ctOf (fun _ => true) srows

/-- The inner loop of `_detect_conflicts`: the claim-type groups of
size > 1 inside one subject group. -/
def subjectClustersCells
    : List (JVal × List ResultRow) → List (List ResultRow)
  | [] => []
  | (_, crows) :: t =>
    (if 1 < crows.length then [crows] else []) ++ subjectClustersCells t

/-- The conflicting claim-type groups of one subject group. -/
def subjectClusters (srows : List ResultRow) : List (List ResultRow) :=
  subjectClustersCells (byClaimType srows)

/-- The outer loop of `_detect_conflicts`: subject groups of size > 1
are examined for claim-type subgroups of size > 1. -/
def clustersOfCells : List (JVal × List ResultRow) → List (List ResultRow)
  | [] => []
  | (_, srows) :: t =>
    (if 1 < srows.length then subjectClusters srows else [])
      ++ clustersOfCells t

/-- The row groups that become conflict clusters. -/
def clustersOf (rows : List ResultRow) : List (List ResultRow) :=
  clustersOfCells (bySubject rows)

/-- `PostgresExecutor._detect_conflicts`: each size->1 (subject,
claim_type) group becomes one `ConflictCluster` of type
`"competing"`. -/
def detectConflicts (rows : List ResultRow) : List ConflictCluster :=
  (clustersOf rows).enum.map
    (fun p => { cluster_id := p.1, conflict_type := "competing",
                rows := p.2 })

/-- The `conflict_row_ids` set of `execute`: the truthy assertion ids
of all cluster member rows. -/
def conflictRowIds (conflicts : List ConflictCluster) : List JVal :=
  (conflicts.map (fun c => c.rows.filterMap
    (fun r => if jTruthy r.assertion_id then some r.assertion_id
              else none))).join

/-- The marking loop of `execute`: rows whose assertion id is in the
conflict set get `has_conflicts = True`.  (Python mutates the shared
row objects, so the same marking is visible through the clusters.) -/
def markRow (ids : List JVal) (r : ResultRow) : ResultRow :=
  if r.assertion_id ∈ ids then
    { r with epistemic := { r.epistemic with has_conflicts := true } }
  else r

/-- The final `rows` value of `execute` (after conflict marking). -/
def markedRows (rows : List ResultRow) : List ResultRow :=
  rows.map (markRow (conflictRowIds (detectConflicts rows)))

/-- The final `conflicts` value of `execute`: the clusters, whose
member rows alias the marked result rows. -/
def markedClusters (rows : List ResultRow) : List ConflictCluster :=
  (detectConflicts rows).map
    (fun c => { c with
      rows := c.rows.map (markRow (conflictRowIds (detectConflicts rows))) })

/-- `context.get(k, default)`. -/
def cget (context : List (String × JVal)) (k : String) (default : JVal) :
    JVal :=
  (pyGet context k).getD default

/-- The `epistemic_template` built by `execute` from the query
context. -/
def epistemicTemplate (context : List (String × JVal)) :
    EpistemicMetadata :=
  { frame_id := cget context "frame_id" (.jstr "F_default")
    frame_version := cget context "frame_version" (.jstr "latest")
    time_projection := cget context "time_projection" (.jstr "AS_OF")
    time_value := cget context "time_value" (.jstr "")
    visibility := cget context "visibility" (.jstr "VISIBLE")
    mode := cget context "mode" (.jstr "GIVEN")
    conflict_policy := cget context "conflict_policy" (.jstr "EXPOSE_ALL") }

/-- `PostgresExecutor.execute`: EXPLAIN returns the plan without
touching the store; otherwise one `_execute_sql` attempt whose failure
is surfaced as an `ExecutionError` wrapping the cause (no rollback, no
retry, executor state untouched), and whose success is mapped, conflict-
detected and marked.  Ambient nondeterminism (`uuid.uuid4()`,
`datetime.now()`, the store's behaviour) is passed in as `uuid`, `now`
and `db`. -/
def pgExecute (ex : PgExecutor) (sql_plan : SQLPlan) (mode : ExecutionMode)
    (query_context : Option (List (String × JVal))) (db : DBResponse)
    (uuid : Nat) (now : PyDateTime) :
    Except ExecutionError QueryResult × PgExecutor × List ConnEvent :=
  let context := query_context.getD []
  if mode = ExecutionMode.EXPLAIN then
    (Except.ok { query_id := uuid, executed_sql := some sql_plan.sql,
                 notes := sql_plan.notes
                   ++ ["EXPLAIN mode: query not executed"] },
     ex, [])
  else
    let template := epistemicTemplate context
    match pgExecuteSql ex db sql_plan.sql with
    | (Except.error e, events) =>
      (Except.error { message := "Query execution failed: " ++ e,
                      sql := some sql_plan.sql, original_error := some e },
       ex, events)
    | (Except.ok raws, events) =>
      let result_rows := mapResults raws template
      (Except.ok
        { rows := markedRows result_rows
          conflicts := markedClusters result_rows
          query_id := uuid
          executed_at := some now
          executed_sql := some sql_plan.sql
          frame_id := template.frame_id
          frame_version := template.frame_version
          time_projection := template.time_projection
          conflict_policy := template.conflict_policy
          notes := sql_plan.notes },
       ex, events)

/-- `PostgresExecutor.begin_transaction`: sets `autocommit = False` and
`_in_transaction = True` when a connection exists; it has no failure
path, so its embedding is total: it never raises, whatever the current
transaction state. -/
def beginTransaction (ex : PgExecutor) : PgExecutor :=
  if ex.connection then { ex with autocommit := false, in_transaction := true }
  else ex

/-- `PostgresExecutor.commit`. -/
def pgCommit (ex : PgExecutor) : PgExecutor × List ConnEvent :=
  if ex.connection && ex.in_transaction then
    ({ ex with in_transaction := false }, [ConnEvent.commit])
  else (ex, [])

/-- `PostgresExecutor.rollback`. -/
def pgRollback (ex : PgExecutor) : PgExecutor × List ConnEvent :=
  if ex.connection && ex.in_transaction then
    ({ ex with in_transaction := false }, [ConnEvent.rollback])
  else (ex, [])

/-- Spec-side: the result rows sharing the (subject_id, claim_type)
key `(s, ct)`, in result order. -/
def keyGroup (rows : List ResultRow) (s ct : JVal) : List ResultRow :=
  rows.filter (fun r => decide (subjOf r = s) && decide (ctOf r = ct))

theorem glook_dictAppend {κ : Type} [DecidableEq κ]
    (d : List (κ × List ResultRow)) (k' k : κ) (r : ResultRow) :
    glook (dictAppend d k' r) k
      = glook d k ++ (if k' = k then [r] else []) := by
  induction d with
  | nil => by_cases h : k' = k <;> simp [dictAppend, glook, h]
  | cons p t ih =>
    obtain ⟨k0, rs⟩ := p
    by_cases h0 : k0 = k'
    · subst h0
      by_cases hk : k0 = k <;> simp [dictAppend, glook, hk]
    · by_cases hk : k0 = k
      · subst hk
        have hne : ¬ k' = k0 := fun h => h0 h.symm
        simp [dictAppend, glook, h0, hne]
      · simp [dictAppend, glook, h0, hk, ih]

theorem glook_foldl (key : ResultRow → JVal) (gate : ResultRow → Bool)
    (rows : List ResultRow) (d : List (JVal × List ResultRow)) (k : JVal) :
    glook (rows.foldl
        (fun d r => if gate r then dictAppend d (key r) r else d) d) k
      = glook d k ++ rows.filter (fun r => gate r && decide (key r = k)) := by
  induction rows generalizing d with
  | nil => simp
  | cons r t ih =>
    simp only [List.foldl_cons, List.filter_cons]
    by_cases hg : gate r
    · rw [if_pos hg, ih]
      by_cases hk : key r = k <;>
        simp [glook_dictAppend, hg, hk]
    · simp [hg, ih]

theorem glook_groupFold (key : ResultRow → JVal) (gate : ResultRow → Bool)
    (rows : List ResultRow) (k : JVal) :
    glook (groupFold key gate rows) k
      = rows.filter (fun r => gate r && decide (key r = k)) := by
  simpa [glook] using glook_foldl key gate rows [] k

theorem keys_dictAppend {κ : Type} [DecidableEq κ]
    (d : List (κ × List ResultRow)) (k : κ) (r : ResultRow) :
    (dictAppend d k r).map Prod.fst
      = if k ∈ d.map Prod.fst then d.map Prod.fst
        else d.map Prod.fst ++ [k] := by
  induction d with
  | nil => simp [dictAppend]
  | cons p t ih =>
    obtain ⟨k0, rs⟩ := p
    by_cases h0 : k0 = k
    · subst h0; simp [dictAppend]
    · have hne : ¬ k = k0 := fun h => h0 h.symm
      by_cases hm : k ∈ t.map Prod.fst <;>
        simp [dictAppend, h0, ih, hm, hne]

theorem nodup_keys_dictAppend {κ : Type} [DecidableEq κ]
    {d : List (κ × List ResultRow)} (hd : (d.map Prod.fst).Nodup)
    (k : κ) (r : ResultRow) :
    ((dictAppend d k r).map Prod.fst).Nodup := by
  rw [keys_dictAppend]
  by_cases hm : k ∈ d.map Prod.fst
  · simpa [hm] using hd
  · simp only [hm, if_false]
    rw [List.nodup_append]
    exact ⟨hd, List.nodup_singleton k, by simpa using hm⟩

theorem nodup_keys_foldl (key : ResultRow → JVal) (gate : ResultRow → Bool)
    (rows : List ResultRow) (d : List (JVal × List ResultRow))
    (hd : (d.map Prod.fst).Nodup) :
    ((rows.foldl
        (fun d r => if gate r then dictAppend d (key r) r else d) d).map
      Prod.fst).Nodup := by
  induction rows generalizing d with
  | nil => simpa using hd
  | cons r t ih =>
    simp only [List.foldl_cons]
    by_cases hg : gate r
    · rw [if_pos hg]; exact ih _ (nodup_keys_dictAppend hd _ _)
    · rw [if_neg hg]; exact ih _ hd

theorem nodup_keys_groupFold (key : ResultRow → JVal)
    (gate : ResultRow → Bool) (rows : List ResultRow) :
    ((groupFold key gate rows).map Prod.fst).Nodup :=
  nodup_keys_foldl key gate rows [] (by simp)

theorem glook_of_mem {κ : Type} [DecidableEq κ]
    {d : List (κ × List ResultRow)} (hd : (d.map Prod.fst).Nodup)
    {k : κ} {g : List ResultRow} (h : (k, g) ∈ d) : glook d k = g := by
  induction d with
  | nil => simp at h
  | cons p t ih =>
    obtain ⟨k0, rs⟩ := p
    rcases List.mem_cons.mp h with h | h
    · obtain ⟨rfl, rfl⟩ := Prod.mk.injEq .. |>.mp h.symm
      simp [glook]
    · have hk : ¬ k0 = k := by
        rintro rfl
        exact (List.nodup_cons.mp hd).1
          (List.mem_map.mpr ⟨(k0, g), h, rfl⟩)
      simp only [glook, if_neg hk]
      exact ih (List.nodup_cons.mp hd).2 h

theorem mem_of_glook_ne_nil {κ : Type} [DecidableEq κ]
    {d : List (κ × List ResultRow)} {k : κ} (h : glook d k ≠ []) :
    (k, glook d k) ∈ d := by
  induction d with
  | nil => simp [glook] at h
  | cons p t ih =>
    obtain ⟨k0, rs⟩ := p
    by_cases hk : k0 = k
    · subst hk; simp [glook]
    · simp only [glook, if_neg hk] at h ⊢
      exact List.mem_cons_of_mem _ (ih h)

theorem mem_groupFold {key : ResultRow → JVal} {gate : ResultRow → Bool}
    {rows : List ResultRow} {k : JVal} {g : List ResultRow}
    (h : (k, g) ∈ groupFold key gate rows) :
    g = rows.filter (fun r => gate r && decide (key r = k)) := by
  rw [← glook_groupFold key gate rows k]
  exact (glook_of_mem (nodup_keys_groupFold key gate rows) h).symm

theorem groupFold_mem {key : ResultRow → JVal} {gate : ResultRow → Bool}
    {rows : List ResultRow} {k : JVal}
    (h : rows.filter (fun r => gate r && decide (key r = k)) ≠ []) :
    (k, rows.filter (fun r => gate r && decide (key r = k)))
      ∈ groupFold key gate rows := by
  have h2 := mem_of_glook_ne_nil (d := groupFold key gate rows) (k := k)
    (by rw [glook_groupFold]; exact h)
  rwa [glook_groupFold] at h2

theorem mem_subjectClustersCells {cells : List (JVal × List ResultRow)}
    {c : List ResultRow} :
    c ∈ subjectClustersCells cells
      ↔ ∃ p ∈ cells, 1 < p.2.length ∧ c = p.2 := by
  induction cells with
  | nil => simp [subjectClustersCells]
  | cons p t ih =>
    obtain ⟨k, crows⟩ := p
    by_cases h : 1 < crows.length <;>
      simp [subjectClustersCells, h, ih]

theorem mem_clustersOfCells {cells : List (JVal × List ResultRow)}
    {c : List ResultRow} :
    c ∈ clustersOfCells cells
      ↔ ∃ p ∈ cells, 1 < p.2.length ∧ c ∈ subjectClusters p.2 := by
  induction cells with
  | nil => simp [clustersOfCells]
  | cons p t ih =>
    obtain ⟨k, srows⟩ := p
    by_cases h : 1 < srows.length <;>
      simp [clustersOfCells, h, ih]

theorem clustersOf_sound {rows : List ResultRow} {c : List ResultRow}
    (h : c ∈ clustersOf rows) :
    1 < c.length ∧ ∃ s ct, jTruthy s = true ∧ c = keyGroup rows s ct := by
  obtain ⟨⟨s, srows⟩, hmem, hslen, hc⟩ := mem_clustersOfCells.mp h
  obtain ⟨⟨ct, crows⟩, hcmem, hclen, rfl⟩ := mem_subjectClustersCells.mp hc
  have hmem' : (s, srows)
      ∈ groupFold subjOf (fun r => jTruthy (subjOf r)) rows := hmem
  have hcmem' : (ct, c) ∈ groupFold ctOf (fun _ => true) srows := hcmem
  have hsr := mem_groupFold hmem'
  have hcr := mem_groupFold hcmem'
  have hclen' : 1 < c.length := hclen
  have hne : c ≠ [] := by
    intro hnil; rw [hnil] at hclen'; simp at hclen'
  obtain ⟨r0, hr0⟩ := List.exists_mem_of_ne_nil c hne
  have hr0s : r0 ∈ srows := by
    rw [hcr] at hr0; exact (List.mem_filter.mp hr0).1
  have hp := (List.mem_filter.mp (hsr ▸ hr0s)).2
  have hs : jTruthy s = true := by
    simp only [Bool.and_eq_true, decide_eq_true_eq] at hp
    rw [← hp.2]; exact hp.1
  have hc2 : c = List.filter (fun r => (true : Bool) && decide (ctOf r = ct))
      (List.filter (fun r => jTruthy (subjOf r) && decide (subjOf r = s))
        rows) := by
    rw [hcr, hsr]
  refine ⟨hclen', s, ct, hs, ?_⟩
  rw [hc2, List.filter_filter, keyGroup]
  refine List.filter_congr (fun r _ => ?_)
  by_cases hss : subjOf r = s
  · simp [hss, hs]
  · simp [hss]

theorem clustersOf_complete {rows : List ResultRow} {s ct : JVal}
    (hs : jTruthy s = true)
    (hlen : 1 < (keyGroup rows s ct).length) :
    keyGroup rows s ct ∈ clustersOf rows := by
  have hkg : keyGroup rows s ct
      = (rows.filter
          (fun r => jTruthy (subjOf r) && decide (subjOf r = s))).filter
          (fun r => true && decide (ctOf r = ct)) := by
    rw [List.filter_filter, keyGroup]
    refine List.filter_congr (fun r _ => ?_)
    by_cases hss : subjOf r = s
    · simp [hss, hs]
    · simp [hss]
  set sg := rows.filter (fun r => jTruthy (subjOf r) && decide (subjOf r = s))
    with hsg
  have hsglen : 1 < sg.length :=
    lt_of_lt_of_le hlen (by rw [hkg]; exact List.length_filter_le _ _)
  have hsgne : sg ≠ [] := by
    intro hnil; rw [hnil] at hsglen; simp at hsglen
  have hmem : (s, sg) ∈ bySubject rows :=
    groupFold_mem (by rw [← hsg]; exact hsgne)
  have hcne : sg.filter (fun r => true && decide (ctOf r = ct)) ≠ [] := by
    rw [← hkg]
    intro hnil; rw [hnil] at hlen; simp at hlen
  have hcmem : (ct, sg.filter (fun r => true && decide (ctOf r = ct)))
      ∈ byClaimType sg := groupFold_mem hcne
  have hsc : keyGroup rows s ct ∈ subjectClusters sg :=
    mem_subjectClustersCells.mpr
      ⟨(ct, sg.filter (fun r => true && decide (ctOf r = ct))), hcmem,
       by rw [← hkg]; exact hlen, hkg⟩
  exact mem_clustersOfCells.mpr ⟨(s, sg), hmem, hsglen, hsc⟩

theorem subjectClusters_sub {g c : List ResultRow}
    (h : c ∈ subjectClusters g) :
    1 < c.length ∧ (∃ ct, ∀ r ∈ c, ctOf r = ct) ∧ ∀ r ∈ c, r ∈ g := by
  obtain ⟨⟨ct, crows⟩, hcmem, hclen, rfl⟩ := mem_subjectClustersCells.mp h
  have hcmem' : (ct, c) ∈ groupFold ctOf (fun _ => true) g := hcmem
  have hcr := mem_groupFold hcmem'
  refine ⟨hclen, ⟨ct, fun r hr => ?_⟩, fun r hr => ?_⟩
  · have := (List.mem_filter.mp (hcr ▸ hr)).2
    simpa using this
  · exact (List.mem_filter.mp (hcr ▸ hr)).1

theorem nodup_subjectClustersCells {cells : List (JVal × List ResultRow)}
    (hk : (cells.map Prod.fst).Nodup)
    (htag : ∀ p ∈ cells, ∀ r ∈ p.2, ctOf r = p.1) :
    (subjectClustersCells cells).Nodup := by
  induction cells with
  | nil => simp [subjectClustersCells]
  | cons p t ih =>
    obtain ⟨k, g⟩ := p
    have hk' : (t.map Prod.fst).Nodup := (List.nodup_cons.mp hk).2
    have hknm : k ∉ t.map Prod.fst := (List.nodup_cons.mp hk).1
    have ih' := ih hk' (fun q hq => htag q (List.mem_cons_of_mem _ hq))
    by_cases hlen : 1 < g.length
    · simp only [subjectClustersCells, if_pos hlen, List.singleton_append]
      refine List.nodup_cons.mpr ⟨?_, ih'⟩
      intro hmem
      obtain ⟨q, hq, hqlen, hgq⟩ := mem_subjectClustersCells.mp hmem
      have hgne : g ≠ [] := by
        intro hnil; rw [hnil] at hlen; simp at hlen
      obtain ⟨r0, hr0⟩ := List.exists_mem_of_ne_nil g hgne
      have h1 : ctOf r0 = k := htag (k, g) (List.mem_cons_self _ _) r0 hr0
      have h2 : ctOf r0 = q.1 :=
        htag q (List.mem_cons_of_mem _ hq) r0 (hgq ▸ hr0)
      exact hknm (List.mem_map.mpr ⟨q, hq, by rw [← h2, h1]⟩)
    · simp only [subjectClustersCells, if_neg hlen, List.nil_append]
      exact ih'

theorem nodup_subjectClusters (g : List ResultRow) :
    (subjectClusters g).Nodup := by
  refine nodup_subjectClustersCells
    (nodup_keys_groupFold ctOf (fun _ => true) g) ?_
  rintro ⟨ct, crows⟩ hq r hr
  have hq' : (ct, crows) ∈ groupFold ctOf (fun _ => true) g := hq
  have := mem_groupFold hq'
  have hp := (List.mem_filter.mp (this ▸ hr)).2
  simpa using hp

theorem nodup_clustersOfCells {cells : List (JVal × List ResultRow)}
    (hk : (cells.map Prod.fst).Nodup)
    (htag : ∀ p ∈ cells, ∀ r ∈ p.2, subjOf r = p.1) :
    (clustersOfCells cells).Nodup := by
  induction cells with
  | nil => simp [clustersOfCells]
  | cons p t ih =>
    obtain ⟨k, g⟩ := p
    have hk' : (t.map Prod.fst).Nodup := (List.nodup_cons.mp hk).2
    have hknm : k ∉ t.map Prod.fst := (List.nodup_cons.mp hk).1
    have ih' := ih hk' (fun q hq => htag q (List.mem_cons_of_mem _ hq))
    by_cases hlen : 1 < g.length
    · simp only [clustersOfCells, if_pos hlen]
      rw [List.nodup_append]
      refine ⟨nodup_subjectClusters g, ih', ?_⟩
      intro c hc hc'
      obtain ⟨hclen, _, hsub⟩ := subjectClusters_sub hc
      obtain ⟨q, hq, hqlen, hcq⟩ := mem_clustersOfCells.mp hc'
      obtain ⟨_, _, hsub'⟩ := subjectClusters_sub hcq
      have hcne : c ≠ [] := by
        intro hnil; rw [hnil] at hclen; simp at hclen
      obtain ⟨r0, hr0⟩ := List.exists_mem_of_ne_nil c hcne
      have h1 : subjOf r0 = k :=
        htag (k, g) (List.mem_cons_self _ _) r0 (hsub r0 hr0)
      have h2 : subjOf r0 = q.1 :=
        htag q (List.mem_cons_of_mem _ hq) r0 (hsub' r0 hr0)
      exact hknm (List.mem_map.mpr ⟨q, hq, by rw [← h2, h1]⟩)
    · simp only [clustersOfCells, if_neg hlen, List.nil_append]
      exact ih'

theorem nodup_clustersOf (rows : List ResultRow) :
    (clustersOf rows).Nodup := by
  refine nodup_clustersOfCells
    (nodup_keys_groupFold subjOf (fun r => jTruthy (subjOf r)) rows) ?_
  rintro ⟨s, srows⟩ hq r hr
  have hq' : (s, srows)
      ∈ groupFold subjOf (fun r => jTruthy (subjOf r)) rows := hq
  have := mem_groupFold hq'
  have hp := (List.mem_filter.mp (this ▸ hr)).2
  simp only [Bool.and_eq_true, decide_eq_true_eq] at hp
  exact hp.2

theorem count_one_of_nodup_mem {α : Type} [BEq α] [LawfulBEq α]
    {l : List α} {a : α} (hnd : l.Nodup) (h : a ∈ l) : l.count a = 1 := by
  induction l with
  | nil => simp at h
  | cons b t ih =>
    rcases List.mem_cons.mp h with rfl | h
    · have h0 : t.count a = 0 :=
        List.count_eq_zero.mpr (List.nodup_cons.mp hnd).1
      rw [List.count_cons_self, h0]
    · have hba : ¬ b = a := by
        rintro rfl
        exact (List.nodup_cons.mp hnd).1 h
      rw [List.count_cons_of_ne (fun hab => hba hab.symm),
        ih (List.nodup_cons.mp hnd).2 h]

theorem clustersOf_count_one {rows : List ResultRow} {s ct : JVal}
    (hs : jTruthy s = true)
    (hlen : 1 < (keyGroup rows s ct).length) :
    (clustersOf rows).count (keyGroup rows s ct) = 1 :=
  count_one_of_nodup_mem (nodup_clustersOf rows)
    (clustersOf_complete hs hlen)

theorem detectConflicts_rows (rows : List ResultRow) :
    (detectConflicts rows).map ConflictCluster.rows = clustersOf rows := by
  simp only [detectConflicts, List.map_map]
  have hcomp : (ConflictCluster.rows ∘ fun p : Nat × List ResultRow =>
      ({ cluster_id := p.1, conflict_type := "competing",
         rows := p.2 } : ConflictCluster)) = Prod.snd := by
    funext p; rfl
  rw [hcomp, List.enum_map_snd]

theorem marked_of_mem_cluster {rows : List ResultRow}
    {c : List ResultRow} {r : ResultRow}
    (hc : c ∈ clustersOf rows) (hr : r ∈ c)
    (ha : jTruthy r.assertion_id = true) :
    (markRow (conflictRowIds (detectConflicts rows)) r).epistemic.has_conflicts
      = true := by
  have hcl : ∃ cl ∈ detectConflicts rows, cl.rows = c := by
    have hdr := detectConflicts_rows rows
    rw [← hdr] at hc
    obtain ⟨cl, hclm, hclr⟩ := List.mem_map.mp hc
    exact ⟨cl, hclm, hclr⟩
  obtain ⟨cl, hclm, hclr⟩ := hcl
  have hid : r.assertion_id ∈ conflictRowIds (detectConflicts rows) := by
    rw [conflictRowIds]
    refine List.mem_join.mpr ⟨cl.rows.filterMap
      (fun r => if jTruthy r.assertion_id then some r.assertion_id
                else none), List.mem_map.mpr ⟨cl, hclm, rfl⟩, ?_⟩
    refine List.mem_filterMap.mpr ⟨r, by rw [hclr]; exact hr, ?_⟩
    rw [if_pos ha]
  simp [markRow, hid]

theorem jget_filter_key (l : RawRow) (k k' : String) :
    jget (l.filter (fun kv => kv.1 != k')) k =
      if k = k' then none else jget l k := by
  induction l with
  | nil => simp [jget]
  | cons kv t ih =>
    by_cases h1 : kv.1 = k' <;> by_cases h2 : kv.1 = k <;>
      simp [jget, List.filter_cons, h1, h2, ih] <;> simp_all [jget]

/-- C10: every row produced by `_map_results` has a payload free of the
eight epistemic/provenance keys — they are relocated into the metadata
and the row-level `assertion_id`/`source_id`, with row-level values
taking precedence over the context-derived template — so payload keys
and epistemic metadata are disjoint in every returned row. -/
theorem C10_payload_epistemic_disjoint (template : EpistemicMetadata)
    (raw : RawRow) (raws : List RawRow) :
    (jget (mapResultRow template raw).data "frame_id" = none ∧
     jget (mapResultRow template raw).data "frame_version" = none ∧
     jget (mapResultRow template raw).data "visibility_scope" = none ∧
     jget (mapResultRow template raw).data "assertion_mode" = none ∧
     jget (mapResultRow template raw).data "certainty" = none ∧
     jget (mapResultRow template raw).data "method" = none ∧
     jget (mapResultRow template raw).data "assertion_id" = none ∧
     jget (mapResultRow template raw).data "source_id" = none) ∧
    ((mapResultRow template raw).epistemic.frame_id =
       (jget raw "frame_id").getD template.frame_id ∧
     (mapResultRow template raw).epistemic.frame_version =
       (jget raw "frame_version").getD template.frame_version ∧
     (mapResultRow template raw).epistemic.visibility =
       (jget raw "visibility_scope").getD template.visibility ∧
     (mapResultRow template raw).epistemic.mode =
       (jget raw "assertion_mode").getD template.mode ∧
     (mapResultRow template raw).epistemic.certainty =
       (jget raw "certainty").getD JVal.jnull ∧
     (mapResultRow template raw).epistemic.certainty_method =
       (jget raw "method").getD JVal.jnull ∧
     (mapResultRow template raw).assertion_id =
       (jget raw "assertion_id").getD JVal.jnull ∧
     (mapResultRow template raw).source_id =
       (jget raw "source_id").getD JVal.jnull) ∧
    mapResults raws template = raws.map (mapResultRow template) := by
  refine ⟨⟨?_, ?_, ?_, ?_, ?_, ?_, ?_, ?_⟩,
          ⟨?_, ?_, ?_, ?_, ?_, ?_, ?_, ?_⟩, rfl⟩ <;>
    ((try simp only [mapResultRow, rowPop])
     (try simp only [jget_filter_key])
     (try simp))

-- Concrete executor fixtures for the transaction/error claims.

/-- A plan stub for executor-level claims. -/
def planStub : SQLPlan :=
  { sql := "SELECT 1", params := [], notes := [], context := [] }

/-- 1970-01-01T00:00:00. -/
def epochDT : PyDateTime := { year := 1970, month := 1, day := 1 }

/-- An executor with an open transaction on a live connection. -/
def exOpen : PgExecutor :=
  { connection := true, autocommit := false, in_transaction := true }

/-- C8 counterexample to the claim as stated: with an open transaction
and a failing backing store, `execute` surfaces the `ExecutionError`
(wrapping the cause and the attempted SQL) WITHOUT any rollback: no
rollback event occurs and the executor is still in a transaction
afterwards. -/
theorem C8_claim_counterexample :
    (pgExecute exOpen planStub ExecutionMode.ANNOTATED none
      (DBResponse.failure "boom") 0 epochDT).1 =
      Except.error { message := "Query execution failed: boom",
                     sql := some "SELECT 1",
                     original_error := some "boom" } ∧
    ConnEvent.rollback ∉
      (pgExecute exOpen planStub ExecutionMode.ANNOTATED none
        (DBResponse.failure "boom") 0 epochDT).2.2 ∧
    ((pgExecute exOpen planStub ExecutionMode.ANNOTATED none
      (DBResponse.failure "boom") 0 epochDT).2.1).in_transaction = true :=
  ⟨rfl, by decide, rfl⟩

/-- C8 (amended): when the backing store raises during a non-EXPLAIN
`execute`, the surfaced failure is an `ExecutionError` wrapping the
original exception as its cause and carrying the attempted SQL, after
exactly one execution attempt (no automatic retry) — but `execute`
performs NO rollback before surfacing (no rollback event; the
executor's transaction state is unchanged); rollback happens only via
the explicit `rollback()`/`close()` calls. -/
theorem C8_execution_error_surfacing (ex : PgExecutor) (plan : SQLPlan)
    (mode : ExecutionMode) (ctx : Option (List (String × JVal)))
    (err : String) (uuid : Nat) (now : PyDateTime)
    (hm : mode ≠ ExecutionMode.EXPLAIN) (hc : ex.connection = true) :
    pgExecute ex plan mode ctx (DBResponse.failure err) uuid now =
      (Except.error { message := "Query execution failed: " ++ err,
                      sql := some plan.sql, original_error := some err },
       ex, [ConnEvent.execSql plan.sql]) ∧
    (pgRollback ex).1.in_transaction = false := by
  constructor
  · simp [pgExecute, hm, pgExecuteSql, hc]
  · by_cases ht : ex.in_transaction <;> simp [pgRollback, hc, ht]

/-- Witness for C8 at a concrete failing execution. -/
theorem C8_execution_error_surfacing_witness :
    pgExecute exOpen planStub ExecutionMode.ANNOTATED none
      (DBResponse.failure "boom") 7 epochDT =
      (Except.error { message := "Query execution failed: boom",
                      sql := some "SELECT 1",
                      original_error := some "boom" },
       exOpen, [ConnEvent.execSql "SELECT 1"]) :=
  (C8_execution_error_surfacing exOpen planStub ExecutionMode.ANNOTATED
    none "boom" 7 epochDT (by decide) rfl).1

/-- C9 counterexample to the claim as stated: calling
`begin_transaction` while a transaction is already open succeeds
silently — it returns normally (the embedding is total because the
source has no raise path) and leaves the state exactly as it was, with
the transaction still open. -/
theorem C9_claim_counterexample :
    beginTransaction exOpen = exOpen ∧ exOpen.in_transaction = true :=
  ⟨rfl, rfl⟩

/-- C9 (amended): `begin_transaction` never raises: on an executor with
a connection it sets the transaction open, and a second call while the
transaction is open silently succeeds as a no-op (idempotent), rather
than being an error. -/
theorem C9_begin_idempotent_not_error (ex : PgExecutor)
    (hc : ex.connection = true) :
    (beginTransaction ex).in_transaction = true ∧
    beginTransaction (beginTransaction ex) = beginTransaction ex := by
  simp [beginTransaction, hc]

/-- Witness for C9 at a fresh connected executor. -/
theorem C9_begin_idempotent_not_error_witness :
    (beginTransaction { connection := true }).in_transaction = true ∧
    beginTransaction (beginTransaction { connection := true }) =
      beginTransaction { connection := true } :=
  C9_begin_idempotent_not_error { connection := true } rfl

-- Concrete fixtures for the conflict-detection claim: three raw rows
-- sharing subject S1 / claim_type temperature with differing values;
-- the third row carries no assertion_id.

/-- S1 temperature 20, asserted by A1. -/
def c4raw1 : RawRow :=
  [("subject_id", .jstr "S1"), ("claim_type", .jstr "temperature"),
   ("value", .jnum 20), ("assertion_id", .jstr "A1")]

/-- S1 temperature 25, asserted by A2. -/
def c4raw2 : RawRow :=
  [("subject_id", .jstr "S1"), ("claim_type", .jstr "temperature"),
   ("value", .jnum 25), ("assertion_id", .jstr "A2")]

/-- S1 temperature 30, with no assertion id. -/
def c4raw3 : RawRow :=
  [("subject_id", .jstr "S1"), ("claim_type", .jstr "temperature"),
   ("value", .jnum 30)]

/-- The query result of executing those three rows on a live
connection (the error branch is unreachable here). -/
def c4res : QueryResult :=
  match (pgExecute exOpen planStub ExecutionMode.ANNOTATED none
      (DBResponse.rows [c4raw1, c4raw2, c4raw3]) 7 epochDT).1 with
  | .ok r => r
  | .error _ => {}

/-- C4 counterexample to the claim as stated: executing three rows that
share subject_id=S1 and claim_type="temperature" yields exactly one
"competing" cluster holding all three rows, but the cluster member
without an assertion id keeps `has_conflicts = false`, and no row's
epistemic metadata ever carries the cluster's member ids
(`conflict_ids` stays empty on every returned row). -/
theorem C4_claim_counterexample :
    c4res.conflicts.map (fun c => (c.conflict_type, c.rows.length))
      = [("competing", 3)] ∧
    c4res.rows.map (fun r => (jTruthy r.assertion_id,
        r.epistemic.has_conflicts))
      = [(true, true), (true, true), (false, false)] ∧
    c4res.conflicts.map (fun c => c.rows.map
        (fun r => r.epistemic.has_conflicts)) = [[true, true, false]] ∧
    c4res.rows.map (fun r => r.epistemic.conflict_ids) = [[], [], []] := by
  decide

/-- C4 (amended): conflict detection groups the result rows by the pair
(subject_id, claim_type), skipping rows with a falsy subject id: every
detected cluster is exactly the rows of one truthy key pair and has
size > 1, every size->1 truthy key group is detected exactly once, every
cluster carries conflict_type "competing", and in the final result every
cluster member row with a truthy assertion id is marked
`has_conflicts = true` (rows with a falsy assertion id stay unmarked,
and `conflict_ids` is never populated: marking preserves it and
`_map_results` always leaves it empty); on a live connection `execute`
returns exactly these marked rows and clusters. -/
theorem C4_conflict_clustering (rows : List ResultRow) :
    (∀ c ∈ clustersOf rows, 1 < c.length ∧
        ∃ s ct, jTruthy s = true ∧ c = keyGroup rows s ct) ∧
    (∀ s ct, jTruthy s = true → 1 < (keyGroup rows s ct).length →
        (clustersOf rows).count (keyGroup rows s ct) = 1) ∧
    ((detectConflicts rows).map ConflictCluster.rows = clustersOf rows) ∧
    (∀ cl ∈ markedClusters rows, cl.conflict_type = "competing" ∧
        ∀ r ∈ cl.rows, jTruthy r.assertion_id = true →
          r.epistemic.has_conflicts = true) ∧
    (∀ ids r, (markRow ids r).epistemic.conflict_ids
        = r.epistemic.conflict_ids) ∧
    (∀ template raw,
        (mapResultRow template raw).epistemic.conflict_ids = []) ∧
    (∀ ex plan ctx raws uuid now r, ex.connection = true →
        (pgExecute ex plan ExecutionMode.ANNOTATED ctx
            (DBResponse.rows raws) uuid now).1 = Except.ok r →
        r.rows = markedRows (mapResults raws (epistemicTemplate (ctx.getD [])))
          ∧ r.conflicts
              = markedClusters
                  (mapResults raws (epistemicTemplate (ctx.getD [])))) := by
  refine ⟨fun c hc => clustersOf_sound hc,
          fun s ct hs hlen => clustersOf_count_one hs hlen,
          detectConflicts_rows rows,
          ?_, ?_, ?_, ?_⟩
  · intro cl hcl
    simp only [markedClusters, List.mem_map] at hcl
    obtain ⟨c0, hc0, rfl⟩ := hcl
    have hcomp : c0.conflict_type = "competing" := by
      simp only [detectConflicts, List.mem_map] at hc0
      obtain ⟨p, _, rfl⟩ := hc0
      rfl
    have hcr : c0.rows ∈ clustersOf rows := by
      rw [← detectConflicts_rows rows]
      exact List.mem_map.mpr ⟨c0, hc0, rfl⟩
    refine ⟨hcomp, ?_⟩
    intro r hr ha
    simp only [List.mem_map] at hr
    obtain ⟨r0, hr0, rfl⟩ := hr
    have haid : (markRow (conflictRowIds (detectConflicts rows))
        r0).assertion_id = r0.assertion_id := by
      rw [markRow]; split <;> rfl
    rw [haid] at ha
    exact marked_of_mem_cluster hcr hr0 ha
  · intro ids r
    rw [markRow]; split <;> rfl
  · intro template raw
    rfl
  · intro ex plan ctx raws uuid now r hconn hok
    simp only [pgExecute, pgExecuteSql, hconn] at hok
    simp only [reduceCtorEq, reduceIte, Bool.true_eq_false,
      Except.ok.injEq] at hok
    subst hok
    exact ⟨rfl, rfl⟩

end EOQL
